import Mathlib

/-! Flappy Bird (game.js): state machine, physics, obstacle stream, shop.

A shallow embedding of `src/game.js`.

Modelling conventions.
* JavaScript numbers that hold positions, velocities and times are exact rationals;
  counters (`score`, `highScore`) are integers, tick counters are naturals.
* `canvas.height` comes from the page markup, which is not part of the script; it is the
  parameter `cH` of every function that reads it.
* `Math.random()` and `performance.now()` are inputs: a handler receives a function whose
  value at `k` is the result of the `k`-th call made while that handler runs.
* `localStorage` is the record `Storage`, carried in the game state.
* `requestAnimationFrame(gameLoop)` sets the flag `loopPending`; a frame can only run
  while the flag is set.
* A JavaScript `TypeError` (reading `.x` of `undefined`) aborts the running handler and
  keeps the mutations made so far: `update` returns `Except.error` with that state.
* Drawing, audio, the sprite animation counters (`birdFrameIdx`, `birdFrameTick`,
  `birdImgs`, `loadBirdImages`) and the hover highlight (`hoveredBtn`, `mousemove`) are
  left out: nothing modelled here reads them.
-/

namespace FlappyBird

/-! ## Constants (game.js 6-12, 29-37, 43-47, 80) -/

def GRAVITY : ℚ := 18 / 100

def FLAP : ℚ := -5

def PIPE_WIDTH : ℚ := 60

def PIPE_GAP : ℚ := 180

def BIRD_SIZE : ℚ := 32

def PIPE_SPEED : ℚ := 12 / 10

def INITIAL_GRAVITY_DURATION : Nat := 60

def INITIAL_GRAVITY : ℚ := 8 / 100

def AUTO_FLAP_INTERVAL : Nat := 18

/-- The five values of `gameState` (game.js 15-19). -/
inductive GameState where
  | STATE_MENU
  | STATE_PLAYING
  | STATE_GAMEOVER
  | STATE_QUIT
  | STATE_PAUSED
  deriving DecidableEq, Repr

open GameState

/-- A menu button rectangle (game.js 36-37). -/
structure Btn where
  x : ℚ
  y : ℚ
  w : ℚ
  h : ℚ

def playBtn : Btn := { x := 120, y := 250, w := 160, h := 60 }

def quitBtn : Btn := { x := 120, y := 340, w := 160, h := 60 }

/-- A bird skin: the number of animation frames and the unlock cost (game.js 43-47). -/
structure BirdSkin where
  frames : Nat
  cost : Int

def birdSkins : List BirdSkin :=
  [{ frames := 8, cost := 0 }, { frames := 8, cost := 20 }, { frames := 8, cost := 40 }]

/-- An obstacle: `x` is the left edge, `height` the top of the gap. -/
structure Pipe where
  x : ℚ
  height : ℚ
  deriving DecidableEq

/-- The three keys of `localStorage` the script uses; `none` is an absent key. -/
structure Storage where
  highScore : Option Int
  unlockedBirds : Option (List Nat)
  selectedBird : Option Nat

/-- The values of `e.code` the handlers distinguish. -/
inductive Key where
  | Space
  | KeyP
  | KeyQ
  | other
  deriving DecidableEq

/-- The mutable globals of the script. -/
structure Game where
  gameState : GameState
  birdY : ℚ
  birdVelocity : ℚ
  pipes : List Pipe
  score : Int
  highScore : Int
  initialGravity : Bool
  initialGravityTimer : Nat
  unlockedBirds : List Nat
  selectedBird : Nat
  showShop : Bool
  pauseCountdown : Nat
  pauseCountdownActive : Bool
  spaceHeld : Bool
  autoFlapTick : Nat
  lastCountdownFrame : Option ℚ
  loopPending : Bool
  localStorage : Storage

/-- The top-level variable initialisers (game.js 20-31, 48-49, 66, 76-79). -/
def load (cH : ℚ) (ls : Storage) : Game :=
  { gameState := STATE_MENU
    birdY := cH / 2
    birdVelocity := 0
    pipes := []
    score := 0
    highScore := ls.highScore.getD 0
    initialGravity := true
    initialGravityTimer := 0
    unlockedBirds := ls.unlockedBirds.getD [0]
    selectedBird := ls.selectedBird.getD 0
    showShop := false
    pauseCountdown := 0
    pauseCountdownActive := false
    spaceHeld := false
    autoFlapTick := 0
    lastCountdownFrame := none
    loopPending := false
    localStorage := ls }

/-- The gap-top height drawn for a new pipe from the random value `r` (game.js 96, 190). -/
def newPipeHeight (cH r : ℚ) : ℚ :=
  r * (cH - PIPE_GAP - 100) + 50

/-- The body of the `for` loop of `resetGame` for index `i` (game.js 93-98). -/
def pushInitialPipe (cH : ℚ) (random : Nat → ℚ) (ps : List Pipe) (i : Nat) : List Pipe :=
  ps ++ [{ x := 400 + (i : ℚ) * 200, height := newPipeHeight cH (random i) }]

/-- The function `resetGame` (game.js 82-99). -/
def resetGame (cH : ℚ) (random : Nat → ℚ) (s : Game) : Game :=
  { s with
    birdY := cH / 2
    birdVelocity := 0
    score := 0
    initialGravity := true
    initialGravityTimer := 0
    pipes := (List.range 3).foldl (pushInitialPipe cH random) [] }

/-- Gravity and auto-flap (game.js 161-171). -/
def applyGravity (s : Game) : Game :=
  let gravity := if s.initialGravity then INITIAL_GRAVITY else GRAVITY
  let s1 := { s with birdVelocity := s.birdVelocity + gravity }
  if s1.spaceHeld && !s1.initialGravity then
    let s2 := { s1 with autoFlapTick := s1.autoFlapTick + 1 }
    if s2.autoFlapTick ≥ AUTO_FLAP_INTERVAL then
      { s2 with birdVelocity := FLAP * (7 / 10), autoFlapTick := 0 }
    else s2
  else s1

/-- Position update and the grace-window timer (game.js 172-178). -/
def moveBird (s : Game) : Game :=
  let s1 := { s with birdY := s.birdY + s.birdVelocity }
  if s1.initialGravity then
    let s2 := { s1 with initialGravityTimer := s1.initialGravityTimer + 1 }
    if s2.initialGravityTimer > INITIAL_GRAVITY_DURATION then
      { s2 with initialGravity := false }
    else s2
  else s1

/-- The shift of every pipe to the left (game.js 181-183). -/
def movePipes (s : Game) : Game :=
  { s with pipes := s.pipes.map (fun pipe => { pipe with x := pipe.x - PIPE_SPEED }) }

/-- The recycle step (game.js 186-198). Reading `pipes[0].x` on an empty list, or
`pipes[pipes.length - 1].x` after the shift emptied the list, throws. -/
def recyclePipe (cH : ℚ) (random : Nat → ℚ) (s : Game) : Except Game Game :=
  match s.pipes with
  | [] => .error s
  | p0 :: rest =>
    if p0.x < -PIPE_WIDTH then
      match rest.getLast? with
      | none => .error { s with pipes := rest }
      | some last =>
        let s1 := { s with
          pipes := rest ++ [{ x := last.x + 200, height := newPipeHeight cH (random 0) }]
          score := s.score + 1 }
        if s1.score > s1.highScore then
          .ok { s1 with
            highScore := s1.score
            localStorage := { s1.localStorage with highScore := some s1.score } }
        else .ok s1
    else .ok s

/-- The test of one pipe against the bird inside `forEach` (game.js 203-207). -/
def pipeHit (birdY : ℚ) (pipe : Pipe) : Bool :=
  decide (80 + BIRD_SIZE / 2 > pipe.x) &&
  decide (80 - BIRD_SIZE / 2 < pipe.x + PIPE_WIDTH) &&
  (decide (birdY - BIRD_SIZE / 2 < pipe.height) ||
    decide (birdY + BIRD_SIZE / 2 > pipe.height + PIPE_GAP))

/-- The value of `collided` at game.js 215: the `forEach` over the pipes, then the
ground and ceiling test. -/
def collided (cH : ℚ) (s : Game) : Bool :=
  let c := s.pipes.foldl (fun c pipe => if pipeHit s.birdY pipe then true else c) false
  if s.birdY + BIRD_SIZE / 2 > cH ∨ s.birdY - BIRD_SIZE / 2 < 0 then true else c

/-- Collision detection (game.js 200-219). -/
def detectCollision (cH : ℚ) (s : Game) : Game :=
  if collided cH s then { s with gameState := STATE_GAMEOVER } else s

/-- The function `update` (game.js 158-220). -/
def update (cH : ℚ) (random : Nat → ℚ) (s : Game) : Except Game Game :=
  if s.gameState ≠ STATE_PLAYING then .ok s
  else
    match recyclePipe cH random (movePipes (moveBird (applyGravity s))) with
    | .error e => .error e
    | .ok s1 => .ok (detectCollision cH s1)

/-- The call `requestAnimationFrame(gameLoop)`. -/
def requestAnimationFrame (s : Game) : Game :=
  { s with loopPending := true }

/-- The countdown branch of `gameLoop` (game.js 355-364). -/
def countdownFrame (clock : Nat → ℚ) (s : Game) : Game :=
  if s.pauseCountdown > 0 then
    match s.lastCountdownFrame with
    | none =>
      { s with pauseCountdown := s.pauseCountdown - 1, lastCountdownFrame := some (clock 0) }
    | some last =>
      if clock 0 - last ≥ 1000 then
        { s with pauseCountdown := s.pauseCountdown - 1, lastCountdownFrame := some (clock 1) }
      else s
  else { s with pauseCountdownActive := false, gameState := STATE_PLAYING }

/-- The function `gameLoop` (game.js 353-381). -/
def gameLoop (cH : ℚ) (clock random : Nat → ℚ) (s : Game) : Game :=
  if s.pauseCountdownActive then
    requestAnimationFrame (countdownFrame clock s)
  else if s.gameState = STATE_QUIT then
    { resetGame cH random s with gameState := STATE_MENU }
  else if s.gameState ≠ STATE_PAUSED then
    match update cH random s with
    | .error e => e
    | .ok s1 => requestAnimationFrame s1
  else requestAnimationFrame s

/-- Whether the point lies in the closed rectangle with corner `(x, y)`. -/
def inRect (mx my x y w h : ℚ) : Bool :=
  decide (mx ≥ x) && decide (mx ≤ x + w) && decide (my ≥ y) && decide (my ≤ y + h)

/-- The purchase-or-select body for skin `i` (game.js 426-440). -/
def chooseBird (i : Nat) (skin : BirdSkin) (s : Game) : Game :=
  if ¬ (s.unlockedBirds.contains i) then
    if s.score ≥ skin.cost then
      let unlocked := s.unlockedBirds ++ [i]
      { s with
        unlockedBirds := unlocked
        selectedBird := i
        localStorage := { s.localStorage with
          unlockedBirds := some unlocked
          selectedBird := some i } }
    else s
  else
    { s with
      selectedBird := i
      localStorage := { s.localStorage with selectedBird := some i } }

/-- The bird-selection `for` loop with its `break` (game.js 422-444), over the skins
still to visit, each paired with its index. -/
def selectBird (mx my : ℚ) : List (Nat × BirdSkin) → Game → Game
  | [], s => s
  | (i, skin) :: more, s =>
    let x : ℚ := 60 + ((i % 4 : Nat) : ℚ) * 100
    let y : ℚ := 120 + ((i / 4 : Nat) : ℚ) * 140
    if inRect mx my x y 64 64 then chooseBird i skin s
    else selectBird mx my more s

/-- The `click` listener of the canvas (game.js 383-446); `mx`, `my` are the pointer
coordinates relative to the canvas. -/
def clickHandler (cH : ℚ) (mx my : ℚ) (random : Nat → ℚ) (s : Game) : Game :=
  if s.gameState = STATE_MENU ∧ s.showShop = false then
    if inRect mx my playBtn.x playBtn.y playBtn.w playBtn.h then
      { resetGame cH random s with gameState := STATE_PLAYING }
    else if inRect mx my playBtn.x (playBtn.y + 100) playBtn.w playBtn.h then
      { s with showShop := true }
    else if inRect mx my quitBtn.x (quitBtn.y + 100) quitBtn.w quitBtn.h then
      { s with gameState := STATE_QUIT }
    else s
  else if s.showShop then
    if inRect mx my 40 (cH - 50) 80 40 then { s with showShop := false }
    else selectBird mx my birdSkins.enum s
  else s

/-- The `keydown` listener (game.js 448-490). -/
def keydownHandler (cH : ℚ) (code : Key) (random : Nat → ℚ) (s : Game) : Game :=
  if s.gameState = STATE_MENU ∨ s.gameState = STATE_QUIT then s
  else if s.pauseCountdownActive then
    if code = Key.KeyQ then
      { s with pauseCountdownActive := false, gameState := STATE_QUIT }
    else if code = Key.KeyP then
      { s with pauseCountdownActive := false, gameState := STATE_PAUSED }
    else s
  else if s.gameState = STATE_PAUSED then
    if code = Key.KeyP then
      { s with pauseCountdown := 3, pauseCountdownActive := true }
    else if code = Key.KeyQ then
      { s with gameState := STATE_QUIT }
    else s
  else if code = Key.Space then
    if s.gameState = STATE_GAMEOVER then
      { resetGame cH random s with gameState := STATE_PLAYING }
    else if s.gameState = STATE_PLAYING then
      { s with birdVelocity := FLAP, spaceHeld := true, autoFlapTick := 0 }
    else s
  else if s.gameState = STATE_PLAYING ∧ code = Key.KeyP then
    { s with gameState := STATE_PAUSED }
  else s

/-- The `keyup` listener (game.js 492-497). -/
def keyupHandler (code : Key) (s : Game) : Game :=
  if code = Key.Space then { s with spaceHeld := false, autoFlapTick := 0 } else s

/-- What the browser can deliver to the script after it has loaded. -/
inductive Event where
  | click (mx my : ℚ) (random : Nat → ℚ)
  | keydown (code : Key) (random : Nat → ℚ)
  | keyup (code : Key)
  | frame (clock random : Nat → ℚ)

/-- One event. A frame runs `gameLoop` only when a callback is pending, and consumes it. -/
def step (cH : ℚ) (s : Game) : Event → Game
  | .click mx my random => clickHandler cH mx my random s
  | .keydown code random => keydownHandler cH code random s
  | .keyup code => keyupHandler code s
  | .frame clock random =>
    if s.loopPending then gameLoop cH clock random { s with loopPending := false } else s

/-- The state once the script has run to its end: the initialisers, then the call
`gameLoop()` of game.js 528. -/
def boot (cH : ℚ) (ls : Storage) (clock random : Nat → ℚ) : Game :=
  gameLoop cH clock random (load cH ls)

/-- The states the page can be in: the booted state and whatever events lead to. -/
inductive Reachable (cH : ℚ) (ls : Storage) : Game → Prop where
  | boot (clock random : Nat → ℚ) : Reachable cH ls (boot cH ls clock random)
  | step {s : Game} (e : Event) : Reachable cH ls s → Reachable cH ls (step cH s e)

/-- A run of consecutive `update` ticks, the `k`-th tick drawing from `random k`; a
throwing tick ends the run. -/
def updates (cH : ℚ) : List (Nat → ℚ) → Game → Except Game Game
  | [], s => .ok s
  | random :: more, s =>
    match update cH random s with
    | .error e => .error e
    | .ok s1 => updates cH more s1

/-! ## Predicates used in the statements -/

/-- Three pipes, each 200 to the right of the one before. -/
def Spaced (ps : List Pipe) : Prop :=
  ∃ a b c, ps = [a, b, c] ∧ b.x = a.x + 200 ∧ c.x = b.x + 200

/-- What holds of the session in every reachable state: the pipe list is empty or a
spaced window, it is a spaced window outside Menu and Quit, and the pause countdown only
runs in Paused. -/
structure Inv (s : Game) : Prop where
  spaced : s.pipes = [] ∨ Spaced s.pipes
  live : s.gameState ≠ STATE_MENU → s.gameState ≠ STATE_QUIT → Spaced s.pipes
  countdown : s.pauseCountdownActive = true → s.gameState = STATE_PAUSED

/-! ## Example inputs -/

/-- An empty `localStorage`: the stored preferences take their defaults. -/
def emptyStorage : Storage :=
  { highScore := none, unlockedBirds := none, selectedBird := none }

/-- A source of clock readings or random values that always yields `r`. -/
def always (r : ℚ) : Nat → ℚ := fun _ => r

/-- The page on a canvas 600 high, after a click on Play. -/
def afterPlayClick : Game :=
  step 600 (boot 600 emptyStorage (always 0) (always (1 / 2))) (.click 200 280 (always (1 / 2)))

/-- Whether the tick that starts in `s` recycles: the leftmost pipe, once shifted, is
past the left boundary (the test of game.js 186). -/
def recycleDue (s : Game) : Bool :=
  match s.pipes with
  | [] => false
  | p0 :: _ => decide (p0.x - PIPE_SPEED < -PIPE_WIDTH)

/-- The number of recycle events in a run of ticks: the ticks that start in Playing with
a recycle due. -/
def recycleEvents (cH : ℚ) : List (Nat → ℚ) → Game → Nat
  | [], _ => 0
  | random :: more, s =>
    match update cH random s with
    | .error _ => 0
    | .ok s1 =>
      (if s.gameState = STATE_PLAYING ∧ recycleDue s = true then 1 else 0) +
        recycleEvents cH more s1

/-- A Playing state one tick before its first recycle, with `score = 0` and
`highScore = 5`. -/
def beforeRecycle : Game :=
  { afterPlayClick with
    highScore := 5
    pipes := [{ x := -59, height := 100 }, { x := 141, height := 200 },
      { x := 341, height := 150 }] }

/-- A Playing state whose next tick leaves the bird's top edge exactly on the gap top
(284) of a pipe that overlaps the bird's column. -/
def beforeTangent : Game :=
  { afterPlayClick with
    birdY := 300
    birdVelocity := -(8 / 100)
    pipes := [{ x := 512 / 10, height := 284 }, { x := 2512 / 10, height := 200 },
      { x := 4512 / 10, height := 150 }] }

/-- The same state with the bird one unit higher: the tick leaves its top edge one unit
above the gap top. -/
def beforeOverlap : Game :=
  { beforeTangent with birdY := 299 }

/-- The velocity and grace-window flags a run of ticks ends with, when it returns. -/
def sessionAfter (cH : ℚ) (rs : List (Nat → ℚ)) (s : Game) :
    Option (GameState × ℚ × Bool × Nat) :=
  (updates cH rs s).toOption.map
    (fun s' => (s'.gameState, s'.birdVelocity, s'.initialGravity, s'.initialGravityTimer))

/-- The shop open on a canvas 600 high, with the default preferences and the given
score. -/
def shopWithScore (score : Int) : Game :=
  { load 600 emptyStorage with showShop := true, score := score, loopPending := true }

/-- The cosmetic invariant: the selected skin is unlocked, skin 0 is unlocked, and no
skin is listed twice. -/
def PrefsOk (s : Game) : Prop :=
  s.selectedBird ∈ s.unlockedBirds ∧ 0 ∈ s.unlockedBirds ∧ s.unlockedBirds.Nodup

/-- The quit key, then one run of `gameLoop`. -/
def quitThenFrame (cH : ℚ) (clock random : Nat → ℚ) (s : Game) : Game :=
  gameLoop cH clock random (keydownHandler cH Key.KeyQ random s)

/-- The example session paused with the pause key. -/
def pausedExample : Game :=
  step 600 afterPlayClick (.keydown Key.KeyP (always 0))

/-- The paused example after the resume key: the pause countdown is running. -/
def countdownExample : Game :=
  step 600 pausedExample (.keydown Key.KeyP (always 0))

/-- A run of events, in order. -/
def run (cH : ℚ) : List Event → Game → Game
  | [], s => s
  | e :: es, s => run cH es (step cH s e)

/-- The shop is only open in Menu, and in Menu the score is 0. -/
def MenuOk (s : Game) : Prop :=
  (s.showShop = true → s.gameState = STATE_MENU) ∧ (s.gameState = STATE_MENU → s.score = 0)

/-- The booted page on a canvas 600 high with an empty `localStorage`. -/
def bootExample : Game :=
  boot 600 emptyStorage (always 0) (always (1 / 2))

/-- The Quit button clicked in Menu, then the frame that handles it. -/
def afterQuit : Game :=
  run 600 [.click 200 470 (always (1 / 2)), .frame (always 16) (always (1 / 2))] bootExample

/-- After that, a click on Play. -/
def afterQuitThenPlay : Game :=
  step 600 afterQuit (.click 200 280 (always (1 / 2)))

/-- The score invariant: the high score is a non-negative count and bounds the score. -/
def ScoreOk (s : Game) : Prop :=
  0 ≤ s.highScore ∧ s.score ≤ s.highScore

/-- The default cosmetic state: only skin 0 unlocked, and selected. -/
def DefaultPrefs (s : Game) : Prop :=
  s.unlockedBirds = [0] ∧ s.selectedBird = 0

/-- Whether the tick that starts in `s` fires an auto-flap: space held, the grace window
over, and the counter reaching the interval with this tick's increment (game.js
164-166). -/
def autoFlapFires (s : Game) : Bool :=
  s.spaceHeld && !s.initialGravity && decide (s.autoFlapTick + 1 ≥ AUTO_FLAP_INTERVAL)

/-- A Playing state past the grace window with Space held and the counter at 0. -/
def holdingSpace : Game :=
  { afterPlayClick with
    initialGravity := false
    initialGravityTimer := 61
    spaceHeld := true
    autoFlapTick := 0 }

/-- A session in which Space is pressed right after the Play click and never released:
155 frames later the bird has hit the ceiling. -/
def heldUntilGameOver : Game :=
  run 600 ([Event.click 200 280 (always (1 / 2)), Event.keydown Key.Space (always 0)] ++
    List.replicate 155 (Event.frame (always 0) (always (1 / 2)))) bootExample

/-- The restart keydown (the held key repeating) after that. -/
def restartWhileHeld : Game :=
  step 600 heldUntilGameOver (.keydown Key.Space (always (1 / 2)))

/-- A session in which Space is pressed in Playing and still held while the player
pauses and quits; the last frame is the one in which `gameLoop` handles Quit. -/
def quitWhileHeld : Game :=
  run 600 [.click 200 280 (always (1 / 2)), .keydown Key.Space (always 0),
    .keydown Key.KeyP (always 0), .keydown Key.KeyQ (always 0),
    .frame (always 16) (always (1 / 2))] bootExample

/-- A frame in which every reading of `performance.now()` is `t`. -/
def frameAt (t : ℚ) : Event :=
  .frame (always t) (always (1 / 2))

/-- Play, a frame at 16 ms, the pause key, a frame at 32 ms, then the resume key (which
therefore arrives at 32 ms or later). -/
def firstResume : Game :=
  run 600 [.click 200 280 (always (1 / 2)), frameAt 16, .keydown Key.KeyP (always 0),
    frameAt 32, .keydown Key.KeyP (always 0)] bootExample

/-- The frames that follow the first resume key, at 48, 1047, 1048, 2048 and 2064 ms. -/
def firstCountdown : List Event :=
  [frameAt 48, frameAt 1047, frameAt 1048, frameAt 2048, frameAt 2064]

/-- After the first countdown: the pause key again, a frame at 5000 ms, then the resume
key (at 5000 ms or later). -/
def secondResume : Game :=
  run 600 [.keydown Key.KeyP (always 0), frameAt 5000, .keydown Key.KeyP (always 0)]
    (run 600 firstCountdown firstResume)

/-- Key events, as opposed to clicks and frames. -/
def isKeyEvent : Event → Bool
  | .keydown _ _ => true
  | .keyup _ => true
  | _ => false

/-- Whether the event `e` switches the game to Playing: `gameState` is not Playing
before it and is Playing after it. -/
def entersPlaying (cH : ℚ) (s : Game) (e : Event) : Bool :=
  decide (s.gameState ≠ STATE_PLAYING) && decide ((step cH s e).gameState = STATE_PLAYING)

/-- The number of switches to Playing in a run of events. -/
def playingEntries (cH : ℚ) : List Event → Game → Nat
  | [], _ => 0
  | e :: es, s => (if entersPlaying cH s e then 1 else 0) + playingEntries cH es (step cH s e)

/-- The resume key, then a run of events. -/
def resumeThen (cH : ℚ) (random : Nat → ℚ) (es : List Event) (s : Game) : Game :=
  run cH es (keydownHandler cH Key.KeyP random s)

/-- The countdown is running on a session frozen as it was in `s0`. -/
def Counting (s0 s : Game) : Prop :=
  s.pauseCountdownActive = true ∧ s.gameState = STATE_PAUSED ∧ s.showShop = false ∧
    s.birdY = s0.birdY ∧ s.birdVelocity = s0.birdVelocity ∧ s.pipes = s0.pipes ∧
    s.score = s0.score

/-- The countdown is over: the flag is clear, the counter is 0 and the game runs or has
ended. -/
def Resumed (s : Game) : Prop :=
  s.pauseCountdownActive = false ∧ s.pauseCountdown = 0 ∧ s.showShop = false ∧
    (s.gameState = STATE_PLAYING ∨ s.gameState = STATE_GAMEOVER)

/-! # Theorems -/

/-! ## Projections of the stages of `update` -/

@[simp] theorem applyGravity_gameState (s : Game) :
    (applyGravity s).gameState = s.gameState := by
  simp only [applyGravity]; split_ifs <;> rfl

@[simp] theorem applyGravity_birdY (s : Game) :
    (applyGravity s).birdY = s.birdY := by
  simp only [applyGravity]; split_ifs <;> rfl

@[simp] theorem applyGravity_pipes (s : Game) :
    (applyGravity s).pipes = s.pipes := by
  simp only [applyGravity]; split_ifs <;> rfl

@[simp] theorem applyGravity_score (s : Game) :
    (applyGravity s).score = s.score := by
  simp only [applyGravity]; split_ifs <;> rfl

@[simp] theorem applyGravity_highScore (s : Game) :
    (applyGravity s).highScore = s.highScore := by
  simp only [applyGravity]; split_ifs <;> rfl

@[simp] theorem applyGravity_initialGravity (s : Game) :
    (applyGravity s).initialGravity = s.initialGravity := by
  simp only [applyGravity]; split_ifs <;> rfl

@[simp] theorem applyGravity_initialGravityTimer (s : Game) :
    (applyGravity s).initialGravityTimer = s.initialGravityTimer := by
  simp only [applyGravity]; split_ifs <;> rfl

@[simp] theorem applyGravity_unlockedBirds (s : Game) :
    (applyGravity s).unlockedBirds = s.unlockedBirds := by
  simp only [applyGravity]; split_ifs <;> rfl

@[simp] theorem applyGravity_selectedBird (s : Game) :
    (applyGravity s).selectedBird = s.selectedBird := by
  simp only [applyGravity]; split_ifs <;> rfl

@[simp] theorem applyGravity_showShop (s : Game) :
    (applyGravity s).showShop = s.showShop := by
  simp only [applyGravity]; split_ifs <;> rfl

@[simp] theorem applyGravity_pauseCountdown (s : Game) :
    (applyGravity s).pauseCountdown = s.pauseCountdown := by
  simp only [applyGravity]; split_ifs <;> rfl

@[simp] theorem applyGravity_pauseCountdownActive (s : Game) :
    (applyGravity s).pauseCountdownActive = s.pauseCountdownActive := by
  simp only [applyGravity]; split_ifs <;> rfl

@[simp] theorem applyGravity_spaceHeld (s : Game) :
    (applyGravity s).spaceHeld = s.spaceHeld := by
  simp only [applyGravity]; split_ifs <;> rfl

@[simp] theorem applyGravity_lastCountdownFrame (s : Game) :
    (applyGravity s).lastCountdownFrame = s.lastCountdownFrame := by
  simp only [applyGravity]; split_ifs <;> rfl

@[simp] theorem applyGravity_loopPending (s : Game) :
    (applyGravity s).loopPending = s.loopPending := by
  simp only [applyGravity]; split_ifs <;> rfl

@[simp] theorem applyGravity_localStorage (s : Game) :
    (applyGravity s).localStorage = s.localStorage := by
  simp only [applyGravity]; split_ifs <;> rfl

@[simp] theorem moveBird_gameState (s : Game) :
    (moveBird s).gameState = s.gameState := by
  simp only [moveBird]; split_ifs <;> rfl

@[simp] theorem moveBird_birdVelocity (s : Game) :
    (moveBird s).birdVelocity = s.birdVelocity := by
  simp only [moveBird]; split_ifs <;> rfl

@[simp] theorem moveBird_pipes (s : Game) :
    (moveBird s).pipes = s.pipes := by
  simp only [moveBird]; split_ifs <;> rfl

@[simp] theorem moveBird_score (s : Game) :
    (moveBird s).score = s.score := by
  simp only [moveBird]; split_ifs <;> rfl

@[simp] theorem moveBird_highScore (s : Game) :
    (moveBird s).highScore = s.highScore := by
  simp only [moveBird]; split_ifs <;> rfl

@[simp] theorem moveBird_unlockedBirds (s : Game) :
    (moveBird s).unlockedBirds = s.unlockedBirds := by
  simp only [moveBird]; split_ifs <;> rfl

@[simp] theorem moveBird_selectedBird (s : Game) :
    (moveBird s).selectedBird = s.selectedBird := by
  simp only [moveBird]; split_ifs <;> rfl

@[simp] theorem moveBird_showShop (s : Game) :
    (moveBird s).showShop = s.showShop := by
  simp only [moveBird]; split_ifs <;> rfl

@[simp] theorem moveBird_pauseCountdown (s : Game) :
    (moveBird s).pauseCountdown = s.pauseCountdown := by
  simp only [moveBird]; split_ifs <;> rfl

@[simp] theorem moveBird_pauseCountdownActive (s : Game) :
    (moveBird s).pauseCountdownActive = s.pauseCountdownActive := by
  simp only [moveBird]; split_ifs <;> rfl

@[simp] theorem moveBird_spaceHeld (s : Game) :
    (moveBird s).spaceHeld = s.spaceHeld := by
  simp only [moveBird]; split_ifs <;> rfl

@[simp] theorem moveBird_autoFlapTick (s : Game) :
    (moveBird s).autoFlapTick = s.autoFlapTick := by
  simp only [moveBird]; split_ifs <;> rfl

@[simp] theorem moveBird_lastCountdownFrame (s : Game) :
    (moveBird s).lastCountdownFrame = s.lastCountdownFrame := by
  simp only [moveBird]; split_ifs <;> rfl

@[simp] theorem moveBird_loopPending (s : Game) :
    (moveBird s).loopPending = s.loopPending := by
  simp only [moveBird]; split_ifs <;> rfl

@[simp] theorem moveBird_localStorage (s : Game) :
    (moveBird s).localStorage = s.localStorage := by
  simp only [moveBird]; split_ifs <;> rfl

@[simp] theorem detectCollision_birdY (cH : ℚ) (s : Game) :
    (detectCollision cH s).birdY = s.birdY := by
  simp only [detectCollision]; split_ifs <;> rfl

@[simp] theorem detectCollision_birdVelocity (cH : ℚ) (s : Game) :
    (detectCollision cH s).birdVelocity = s.birdVelocity := by
  simp only [detectCollision]; split_ifs <;> rfl

@[simp] theorem detectCollision_pipes (cH : ℚ) (s : Game) :
    (detectCollision cH s).pipes = s.pipes := by
  simp only [detectCollision]; split_ifs <;> rfl

@[simp] theorem detectCollision_score (cH : ℚ) (s : Game) :
    (detectCollision cH s).score = s.score := by
  simp only [detectCollision]; split_ifs <;> rfl

@[simp] theorem detectCollision_highScore (cH : ℚ) (s : Game) :
    (detectCollision cH s).highScore = s.highScore := by
  simp only [detectCollision]; split_ifs <;> rfl

@[simp] theorem detectCollision_initialGravity (cH : ℚ) (s : Game) :
    (detectCollision cH s).initialGravity = s.initialGravity := by
  simp only [detectCollision]; split_ifs <;> rfl

@[simp] theorem detectCollision_initialGravityTimer (cH : ℚ) (s : Game) :
    (detectCollision cH s).initialGravityTimer = s.initialGravityTimer := by
  simp only [detectCollision]; split_ifs <;> rfl

@[simp] theorem detectCollision_unlockedBirds (cH : ℚ) (s : Game) :
    (detectCollision cH s).unlockedBirds = s.unlockedBirds := by
  simp only [detectCollision]; split_ifs <;> rfl

@[simp] theorem detectCollision_selectedBird (cH : ℚ) (s : Game) :
    (detectCollision cH s).selectedBird = s.selectedBird := by
  simp only [detectCollision]; split_ifs <;> rfl

@[simp] theorem detectCollision_showShop (cH : ℚ) (s : Game) :
    (detectCollision cH s).showShop = s.showShop := by
  simp only [detectCollision]; split_ifs <;> rfl

@[simp] theorem detectCollision_pauseCountdown (cH : ℚ) (s : Game) :
    (detectCollision cH s).pauseCountdown = s.pauseCountdown := by
  simp only [detectCollision]; split_ifs <;> rfl

@[simp] theorem detectCollision_pauseCountdownActive (cH : ℚ) (s : Game) :
    (detectCollision cH s).pauseCountdownActive = s.pauseCountdownActive := by
  simp only [detectCollision]; split_ifs <;> rfl

@[simp] theorem detectCollision_spaceHeld (cH : ℚ) (s : Game) :
    (detectCollision cH s).spaceHeld = s.spaceHeld := by
  simp only [detectCollision]; split_ifs <;> rfl

@[simp] theorem detectCollision_autoFlapTick (cH : ℚ) (s : Game) :
    (detectCollision cH s).autoFlapTick = s.autoFlapTick := by
  simp only [detectCollision]; split_ifs <;> rfl

@[simp] theorem detectCollision_lastCountdownFrame (cH : ℚ) (s : Game) :
    (detectCollision cH s).lastCountdownFrame = s.lastCountdownFrame := by
  simp only [detectCollision]; split_ifs <;> rfl

@[simp] theorem detectCollision_loopPending (cH : ℚ) (s : Game) :
    (detectCollision cH s).loopPending = s.loopPending := by
  simp only [detectCollision]; split_ifs <;> rfl

@[simp] theorem detectCollision_localStorage (cH : ℚ) (s : Game) :
    (detectCollision cH s).localStorage = s.localStorage := by
  simp only [detectCollision]; split_ifs <;> rfl

@[simp] theorem moveBird_birdY (s : Game) :
    (moveBird s).birdY = s.birdY + s.birdVelocity := by
  simp only [moveBird]; split_ifs <;> rfl

/-- The pipes `resetGame` creates. -/
theorem resetGame_pipes (cH : ℚ) (random : Nat → ℚ) (s : Game) :
    (resetGame cH random s).pipes =
      [{ x := 400, height := newPipeHeight cH (random 0) },
       { x := 600, height := newPipeHeight cH (random 1) },
       { x := 800, height := newPipeHeight cH (random 2) }] := by
  simp [resetGame, List.range, List.range.loop, pushInitialPipe]
  norm_num

/-! ## The obstacle window -/

theorem Spaced.length {ps : List Pipe} (h : Spaced ps) : ps.length = 3 := by
  obtain ⟨a, b, c, rfl, -, -⟩ := h
  rfl

theorem resetGame_spaced (cH : ℚ) (random : Nat → ℚ) (s : Game) :
    Spaced (resetGame cH random s).pipes := by
  rw [resetGame_pipes]
  exact ⟨_, _, _, rfl, by norm_num, by norm_num⟩

/-- What the recycle step leaves out of a state, when it returns. -/
theorem recyclePipe_frame {cH : ℚ} {random : Nat → ℚ} {s s' : Game}
    (h : recyclePipe cH random s = .ok s') :
    s'.gameState = s.gameState ∧ s'.birdY = s.birdY ∧ s'.birdVelocity = s.birdVelocity ∧
    s'.initialGravity = s.initialGravity ∧ s'.initialGravityTimer = s.initialGravityTimer ∧
    s'.unlockedBirds = s.unlockedBirds ∧ s'.selectedBird = s.selectedBird ∧
    s'.showShop = s.showShop ∧ s'.pauseCountdown = s.pauseCountdown ∧
    s'.pauseCountdownActive = s.pauseCountdownActive ∧ s'.spaceHeld = s.spaceHeld ∧
    s'.autoFlapTick = s.autoFlapTick ∧ s'.lastCountdownFrame = s.lastCountdownFrame ∧
    s'.loopPending = s.loopPending := by
  unfold recyclePipe at h
  split at h
  · cases h
  · split_ifs at h
    · split at h
      · cases h
      · simp only at h
        split_ifs at h <;> cases h <;> simp
    · cases h
      simp

/-- On a spaced window the recycle step returns, and the window stays spaced. -/
theorem recyclePipe_spaced (cH : ℚ) (random : Nat → ℚ) (s : Game) (hs : Spaced s.pipes) :
    ∃ s', recyclePipe cH random s = .ok s' ∧ Spaced s'.pipes := by
  obtain ⟨a, b, c, hps, hab, hbc⟩ := hs
  unfold recyclePipe
  rw [hps]
  simp only
  split_ifs with h1 h2
  · exact ⟨_, rfl, b, c, ⟨c.x + 200, newPipeHeight cH (random 0)⟩, by simp, hbc, rfl⟩
  · exact ⟨_, rfl, b, c, ⟨c.x + 200, newPipeHeight cH (random 0)⟩, by simp, hbc, rfl⟩
  · exact ⟨_, rfl, a, b, c, hps, hab, hbc⟩

theorem movePipes_spaced (s : Game) (hs : Spaced s.pipes) : Spaced (movePipes s).pipes := by
  obtain ⟨a, b, c, hps, hab, hbc⟩ := hs
  refine ⟨_, _, _, by simp [movePipes, hps]; exact ⟨rfl, rfl, rfl⟩, ?_, ?_⟩
  · simp only; rw [hab]; ring
  · simp only; rw [hbc]; ring

theorem update_not_playing (cH : ℚ) (random : Nat → ℚ) (s : Game)
    (h : s.gameState ≠ STATE_PLAYING) : update cH random s = .ok s := by
  simp [update, h]

/-- A tick on a spaced window returns: it is the collision test applied to what the
recycle step returns, and the window stays spaced. -/
theorem update_spaced (cH : ℚ) (random : Nat → ℚ) (s : Game)
    (hp : s.gameState = STATE_PLAYING) (hs : Spaced s.pipes) :
    ∃ m, recyclePipe cH random (movePipes (moveBird (applyGravity s))) = .ok m ∧
      update cH random s = .ok (detectCollision cH m) ∧ Spaced m.pipes := by
  have h1 : Spaced (movePipes (moveBird (applyGravity s))).pipes :=
    movePipes_spaced _ (by simpa using hs)
  obtain ⟨m, hm, hsp⟩ := recyclePipe_spaced cH random _ h1
  refine ⟨m, hm, ?_, hsp⟩
  simp [update, hp, hm]

/-! ## Shop clicks leave the session alone -/

theorem chooseBird_frame (i : Nat) (skin : BirdSkin) (s : Game) :
    (chooseBird i skin s).gameState = s.gameState ∧
    (chooseBird i skin s).pipes = s.pipes ∧
    (chooseBird i skin s).pauseCountdownActive = s.pauseCountdownActive ∧
    (chooseBird i skin s).score = s.score ∧
    (chooseBird i skin s).highScore = s.highScore ∧
    (chooseBird i skin s).showShop = s.showShop ∧
    (chooseBird i skin s).loopPending = s.loopPending := by
  unfold chooseBird
  split_ifs <;> simp

theorem selectBird_frame (mx my : ℚ) (l : List (Nat × BirdSkin)) (s : Game) :
    (selectBird mx my l s).gameState = s.gameState ∧
    (selectBird mx my l s).pipes = s.pipes ∧
    (selectBird mx my l s).pauseCountdownActive = s.pauseCountdownActive ∧
    (selectBird mx my l s).score = s.score ∧
    (selectBird mx my l s).highScore = s.highScore ∧
    (selectBird mx my l s).showShop = s.showShop ∧
    (selectBird mx my l s).loopPending = s.loopPending := by
  induction l with
  | nil => simp [selectBird]
  | cons p more ih =>
    obtain ⟨i, skin⟩ := p
    simp only [selectBird]
    split_ifs
    · exact chooseBird_frame i skin s
    · exact ih

/-! ## The session invariant -/

theorem inv_load (cH : ℚ) (ls : Storage) : Inv (load cH ls) :=
  ⟨Or.inl rfl, fun h => absurd rfl h, fun h => by simp [FlappyBird.load] at h⟩

theorem inv_clickHandler (cH mx my : ℚ) (random : Nat → ℚ) {s : Game} (h : Inv s) :
    Inv (clickHandler cH mx my random s) := by
  unfold FlappyBird.clickHandler
  split_ifs with h1 h2 h3 h4 h5 h6
  · have hc : s.pauseCountdownActive ≠ true := fun hc => by
      rw [h.countdown hc] at h1; simp at h1
    exact ⟨Or.inr (resetGame_spaced cH random s), fun _ _ => resetGame_spaced cH random s,
      fun hc' => absurd (by simpa [resetGame] using hc') hc⟩
  · exact ⟨h.spaced, h.live, h.countdown⟩
  · have hc : s.pauseCountdownActive ≠ true := fun hc => by
      rw [h.countdown hc] at h1; simp at h1
    exact ⟨h.spaced, fun _ hq => absurd rfl hq, fun hc' => absurd hc' hc⟩
  · exact h
  · exact ⟨h.spaced, h.live, h.countdown⟩
  · obtain ⟨hg, hps, hpa, -⟩ := selectBird_frame mx my birdSkins.enum s
    exact ⟨by rw [hps]; exact h.spaced, by rw [hg, hps]; exact h.live,
      by rw [hg, hpa]; exact h.countdown⟩
  · exact h

theorem inv_keydownHandler (cH : ℚ) (code : Key) (random : Nat → ℚ) {s : Game} (h : Inv s) :
    Inv (keydownHandler cH code random s) := by
  unfold FlappyBird.keydownHandler
  split_ifs with h1 h2 h3 h4 h5 h6 h7 h8 h9 h10 h11
  · exact h
  · exact ⟨h.spaced, fun _ hq => absurd rfl hq, fun hc => by simp at hc⟩
  · have := h.live (fun e => h1 (Or.inl e)) (fun e => h1 (Or.inr e))
    exact ⟨h.spaced, fun _ _ => this, fun hc => by simp at hc⟩
  · exact h
  · exact ⟨h.spaced, h.live, fun _ => h5⟩
  · exact ⟨h.spaced, fun _ hq => absurd rfl hq, fun hc => absurd hc h2⟩
  · exact h
  · exact ⟨Or.inr (resetGame_spaced cH random s), fun _ _ => resetGame_spaced cH random s,
      fun hc => absurd (by simpa [resetGame] using hc) h2⟩
  · exact ⟨h.spaced, h.live, h.countdown⟩
  · exact h
  · exact ⟨h.spaced, fun _ _ => h.live (fun e => h1 (Or.inl e)) (fun e => h1 (Or.inr e)),
      fun hc => absurd hc h2⟩
  · exact h

theorem inv_keyupHandler (code : Key) {s : Game} (h : Inv s) : Inv (keyupHandler code s) := by
  unfold FlappyBird.keyupHandler
  split_ifs
  · exact ⟨h.spaced, h.live, h.countdown⟩
  · exact h

theorem inv_detectCollision (cH : ℚ) {s : Game} (hs : Spaced s.pipes)
    (hc : s.pauseCountdownActive = false) : Inv (detectCollision cH s) :=
  ⟨Or.inr (by simpa using hs), fun _ _ => by simpa using hs, fun h => by simp [hc] at h⟩

theorem countdownFrame_pipes (clock : Nat → ℚ) (s : Game) :
    (countdownFrame clock s).pipes = s.pipes := by
  unfold countdownFrame
  split_ifs
  · split
    · rfl
    · split_ifs <;> rfl
  · rfl

theorem countdownFrame_active (clock : Nat → ℚ) (s : Game)
    (h : (countdownFrame clock s).pauseCountdownActive = true) :
    (countdownFrame clock s).gameState = s.gameState := by
  unfold countdownFrame at h ⊢
  split_ifs
  · split
    · rfl
    · split_ifs <;> rfl
  · rw [if_neg ‹_›] at h
    simp at h

theorem inv_gameLoop (cH : ℚ) (clock random : Nat → ℚ) {s : Game} (h : Inv s) :
    Inv (gameLoop cH clock random s) := by
  unfold FlappyBird.gameLoop
  split_ifs with h1 h2 h3
  · have hp := h.countdown h1
    have hl : Spaced s.pipes := h.live (by simp [hp]) (by simp [hp])
    have hl' : Spaced (countdownFrame clock s).pipes := by
      rw [countdownFrame_pipes]; exact hl
    exact ⟨Or.inr hl', fun _ _ => hl', fun hc => (countdownFrame_active clock s hc).trans hp⟩
  · exact ⟨Or.inr (resetGame_spaced cH random s), fun hm => absurd rfl hm,
      fun hc => absurd (by simpa [resetGame] using hc) h1⟩
  · by_cases hp : s.gameState = STATE_PLAYING
    · obtain ⟨m, hm, hu, hsp⟩ :=
        update_spaced cH random s hp (h.live (by simp [hp]) (by simp [hp]))
      have hf := recyclePipe_frame hm
      have hc : m.pauseCountdownActive = false := by
        rw [hf.2.2.2.2.2.2.2.2.2.1]
        simpa [movePipes] using h1
      rw [hu]
      have := inv_detectCollision cH hsp hc
      exact ⟨this.spaced, this.live, this.countdown⟩
    · rw [update_not_playing cH random s hp]
      exact ⟨h.spaced, h.live, h.countdown⟩
  · exact ⟨h.spaced, h.live, h.countdown⟩

theorem inv_step (cH : ℚ) (e : Event) {s : Game} (h : Inv s) : Inv (step cH s e) := by
  cases e with
  | click mx my random => exact inv_clickHandler cH mx my random h
  | keydown code random => exact inv_keydownHandler cH code random h
  | keyup code => exact inv_keyupHandler code h
  | frame clock random =>
    simp only [FlappyBird.step]
    split_ifs
    · exact inv_gameLoop cH clock random ⟨h.spaced, h.live, h.countdown⟩
    · exact h

theorem Reachable.inv {cH : ℚ} {ls : Storage} {s : Game} (h : Reachable cH ls s) : Inv s := by
  induction h with
  | boot clock random => exact inv_gameLoop cH clock random (inv_load cH ls)
  | step e _ ih => exact inv_step cH e ih

theorem afterPlayClick_reachable : Reachable 600 emptyStorage afterPlayClick :=
  Reachable.step _ (Reachable.boot _ _)

theorem afterPlayClick_playing : afterPlayClick.gameState = STATE_PLAYING := by
  decide!

/-! ## C1 -/

/-- C1: in every state reachable from the booted page (Menu, no pipes) by clicks, key
events and frames, if `gameState` is Playing then there are exactly 3 pipes, and every
`update` tick from there returns (no access to `pipes[0]` or to the last pipe is out of
range) with exactly 3 pipes, whether or not it recycles the leftmost one. -/
theorem playing_has_three_pipes (cH : ℚ) (ls : Storage) (s : Game)
    (hr : Reachable cH ls s) (hp : s.gameState = STATE_PLAYING) :
    s.pipes.length = 3 ∧
    ∀ random : Nat → ℚ, ∃ s', update cH random s = .ok s' ∧ s'.pipes.length = 3 := by
  have hl : Spaced s.pipes := hr.inv.live (by simp [hp]) (by simp [hp])
  refine ⟨hl.length, fun random => ?_⟩
  obtain ⟨m, -, hu, hsp⟩ := update_spaced cH random s hp hl
  exact ⟨_, hu, by simpa using hsp.length⟩

theorem playing_has_three_pipes_witness :
    afterPlayClick.pipes.length = 3 ∧
    ∀ random : Nat → ℚ, ∃ s', update 600 random afterPlayClick = .ok s' ∧ s'.pipes.length = 3 :=
  playing_has_three_pipes 600 emptyStorage afterPlayClick afterPlayClick_reachable
    afterPlayClick_playing

/-! ## C2 -/

/-- One tick from Playing with at least two pipes: it returns, keeps the number of pipes,
and scores exactly when a recycle was due. -/
theorem update_score (cH : ℚ) (random : Nat → ℚ) (s : Game)
    (hp : s.gameState = STATE_PLAYING) (hl : 2 ≤ s.pipes.length) :
    ∃ s', update cH random s = .ok s' ∧ s'.pipes.length = s.pipes.length ∧
      (recycleDue s = true →
        s'.score = s.score + 1 ∧ s'.highScore = max s.highScore (s.score + 1)) ∧
      (recycleDue s = false → s'.score = s.score ∧ s'.highScore = s.highScore) := by
  obtain ⟨p, q, rest, hps⟩ : ∃ p q rest, s.pipes = p :: q :: rest := by
    match h : s.pipes with
    | [] => simp [h] at hl
    | [_] => simp [h] at hl
    | p :: q :: rest => exact ⟨p, q, rest, rfl⟩
  have hlast : ∃ last, (List.map (fun pipe : Pipe => ({ pipe with x := pipe.x - PIPE_SPEED } : Pipe))
      (q :: rest)).getLast? = some last := by
    rw [List.getLast?_eq_getLast _ (by simp)]
    exact ⟨_, rfl⟩
  obtain ⟨last, hlast⟩ := hlast
  by_cases hd : p.x - PIPE_SPEED < -PIPE_WIDTH
  · by_cases hh : s.score + 1 > s.highScore
    · refine ⟨_, by
        simp only [update, hp, ne_eq, not_true_eq_false, ite_false, recyclePipe, movePipes,
          moveBird_pipes, applyGravity_pipes, hps, List.map_cons, hd, ite_true, hlast,
          moveBird_score, applyGravity_score, moveBird_highScore, applyGravity_highScore, hh]
        rfl, ?_, ?_, ?_⟩
      · simp [hps]
      · intro _
        simp only [detectCollision_score, detectCollision_highScore]
        refine ⟨trivial, ?_⟩
        rw [max_def]; split_ifs <;> omega
      · intro hn
        simp [recycleDue, hps, hd] at hn
    · refine ⟨_, by
        simp only [update, hp, ne_eq, not_true_eq_false, ite_false, recyclePipe, movePipes,
          moveBird_pipes, applyGravity_pipes, hps, List.map_cons, hd, ite_true, hlast,
          moveBird_score, applyGravity_score, moveBird_highScore, applyGravity_highScore, hh]
        rfl, ?_, ?_, ?_⟩
      · simp [hps]
      · intro _
        simp only [detectCollision_score, detectCollision_highScore, moveBird_score,
          applyGravity_score, moveBird_highScore, applyGravity_highScore]
        refine ⟨trivial, ?_⟩
        rw [max_def]; split_ifs <;> omega
      · intro hn
        simp [recycleDue, hps, hd] at hn
  · refine ⟨_, by
      simp only [update, hp, ne_eq, not_true_eq_false, ite_false, recyclePipe, movePipes,
        moveBird_pipes, applyGravity_pipes, hps, List.map_cons, hd]
      rfl, ?_, ?_, ?_⟩
    · simp [hps]
    · intro hn
      simp [recycleDue, hps, hd] at hn
    · intro _
      simp

/-- A run of ticks from a state with at least two pipes returns; the score grows by the
number of recycle events and the high score follows it. -/
theorem updates_score (cH : ℚ) (rs : List (Nat → ℚ)) :
    ∀ s : Game, 2 ≤ s.pipes.length →
      ∃ sN, updates cH rs s = .ok sN ∧
        sN.score = s.score + (recycleEvents cH rs s : Int) ∧
        (s.score ≤ s.highScore ∨ 0 < recycleEvents cH rs s →
          sN.highScore = max s.highScore (s.score + (recycleEvents cH rs s : Int))) := by
  induction rs with
  | nil =>
    intro s _
    refine ⟨s, rfl, by simp [recycleEvents], ?_⟩
    intro h
    simp only [recycleEvents, lt_self_iff_false, or_false] at h
    simp [recycleEvents, h]
  | cons random more ih =>
    intro s hl
    by_cases hp : s.gameState = STATE_PLAYING
    · obtain ⟨s1, hu, hlen, hyes, hno⟩ := update_score cH random s hp hl
      obtain ⟨sN, hrun, hsc, hhs⟩ := ih s1 (by rw [hlen]; exact hl)
      refine ⟨sN, by simp [updates, hu, hrun], ?_, ?_⟩
      · cases hd : recycleDue s with
        | true =>
          simp only [recycleEvents, hu, hp, hd, and_self, ite_true, Nat.cast_add, Nat.cast_one]
          rw [hsc, (hyes hd).1]; ring
        | false =>
          simp only [recycleEvents, hu, hp, hd, Bool.false_eq_true, and_false, ite_false,
            zero_add]
          rw [hsc, (hno hd).1]
      · cases hd : recycleDue s with
        | true =>
          simp only [recycleEvents, hu, hp, hd, and_self, ite_true, Nat.cast_add, Nat.cast_one]
          intro _
          have h1 := (hyes hd).1
          have h2 := (hyes hd).2
          rw [hhs (Or.inl (by rw [h1, h2]; exact le_max_right _ _)), h1, h2]
          rw [max_assoc]
          congr 1
          rw [max_eq_right (by omega)]
          ring
        | false =>
          simp only [recycleEvents, hu, hp, hd, Bool.false_eq_true, and_false, ite_false,
            zero_add]
          intro h
          rw [hhs (by rw [(hno hd).1, (hno hd).2]; exact h), (hno hd).1, (hno hd).2]
    · have hu := update_not_playing cH random s hp
      obtain ⟨sN, hrun, hsc, hhs⟩ := ih s hl
      refine ⟨sN, by simp [updates, hu, hrun], ?_, ?_⟩
      · simp only [recycleEvents, hu, hp, false_and, ite_false, zero_add]
        exact hsc
      · simp only [recycleEvents, hu, hp, false_and, ite_false, zero_add]
        exact hhs

/-- C2: a tick from Playing returns; if the leftmost pipe, once shifted, has
`x < -PIPE_WIDTH` the score grows by exactly 1 and the high score becomes the larger of
its old value and the new score, otherwise both are unchanged. Hence a run of ticks from
`score = 0` and `highScore = h` that holds `n` recycle events ends with `score = n` and
`highScore = max h n` (for `h` a non-negative count, or `n` positive). -/
theorem recycle_scores (cH : ℚ) (random : Nat → ℚ) (rs : List (Nat → ℚ)) (s : Game)
    (hl : 2 ≤ s.pipes.length) :
    (s.gameState = STATE_PLAYING →
      ∃ s', update cH random s = .ok s' ∧
        (recycleDue s = true →
          s'.score = s.score + 1 ∧ s'.highScore = max s.highScore (s.score + 1)) ∧
        (recycleDue s = false → s'.score = s.score ∧ s'.highScore = s.highScore)) ∧
    (s.score = 0 →
      ∃ sN, updates cH rs s = .ok sN ∧ sN.score = (recycleEvents cH rs s : Int) ∧
        (0 ≤ s.highScore ∨ 0 < recycleEvents cH rs s →
          sN.highScore = max s.highScore (recycleEvents cH rs s : Int))) := by
  constructor
  · intro hp
    obtain ⟨s', hu, -, hyes, hno⟩ := update_score cH random s hp hl
    exact ⟨s', hu, hyes, hno⟩
  · intro h0
    obtain ⟨sN, hrun, hsc, hhs⟩ := updates_score cH rs s hl
    rw [h0, zero_add] at hsc hhs
    exact ⟨sN, hrun, hsc, hhs⟩

theorem recycle_scores_witness :
    (beforeRecycle.gameState = STATE_PLAYING →
      ∃ s', update 600 (always (1 / 2)) beforeRecycle = .ok s' ∧
        (recycleDue beforeRecycle = true →
          s'.score = beforeRecycle.score + 1 ∧
            s'.highScore = max beforeRecycle.highScore (beforeRecycle.score + 1)) ∧
        (recycleDue beforeRecycle = false →
          s'.score = beforeRecycle.score ∧ s'.highScore = beforeRecycle.highScore)) ∧
    (beforeRecycle.score = 0 →
      ∃ sN, updates 600 [always (1 / 2), always (1 / 2)] beforeRecycle = .ok sN ∧
        sN.score = (recycleEvents 600 [always (1 / 2), always (1 / 2)] beforeRecycle : Int) ∧
        (0 ≤ beforeRecycle.highScore ∨
            0 < recycleEvents 600 [always (1 / 2), always (1 / 2)] beforeRecycle →
          sN.highScore = max beforeRecycle.highScore
            (recycleEvents 600 [always (1 / 2), always (1 / 2)] beforeRecycle : Int))) :=
  recycle_scores 600 (always (1 / 2)) [always (1 / 2), always (1 / 2)] beforeRecycle
    (by decide!)

/-- The run of C2 at the example state: two ticks hold one recycle event, after which
`score = 1` and `highScore = 5`. -/
theorem beforeRecycle_run :
    beforeRecycle.score = 0 ∧ beforeRecycle.highScore = 5 ∧
    beforeRecycle.gameState = STATE_PLAYING ∧ recycleDue beforeRecycle = true ∧
    recycleEvents 600 [always (1 / 2), always (1 / 2)] beforeRecycle = 1 ∧
    (updates 600 [always (1 / 2), always (1 / 2)] beforeRecycle).toOption.map
      (fun s => (s.score, s.highScore)) = some (1, 5) := by
  decide!

/-! ## C3 -/

/-- With at least two pipes the recycle step returns. -/
theorem recyclePipe_ok (cH : ℚ) (random : Nat → ℚ) (s : Game) (hl : 2 ≤ s.pipes.length) :
    ∃ m, recyclePipe cH random s = .ok m := by
  match h : s.pipes with
  | [] => simp [h] at hl
  | [_] => simp [h] at hl
  | p :: q :: rest =>
    unfold recyclePipe
    rw [h]
    simp only
    rw [List.getLast?_eq_getLast _ (by simp)]
    simp only
    split_ifs <;> exact ⟨_, rfl⟩

/-- A tick from Playing with at least two pipes is the collision test applied to the
state the recycle step returns. -/
theorem update_eq_detect (cH : ℚ) (random : Nat → ℚ) (s : Game)
    (hp : s.gameState = STATE_PLAYING) (hl : 2 ≤ s.pipes.length) :
    ∃ m, recyclePipe cH random (movePipes (moveBird (applyGravity s))) = .ok m ∧
      update cH random s = .ok (detectCollision cH m) := by
  obtain ⟨m, hm⟩ := recyclePipe_ok cH random (movePipes (moveBird (applyGravity s)))
    (by simpa [movePipes] using hl)
  exact ⟨m, hm, by simp [update, hp, hm]⟩

/-- The flag the `forEach` of the collision test leaves: set when it was set before or
when some pipe is hit. -/
theorem foldl_pipeHit (birdY : ℚ) (ps : List Pipe) (c : Bool) :
    ps.foldl (fun c pipe => if pipeHit birdY pipe then true else c) c = true ↔
      c = true ∨ ∃ p ∈ ps, pipeHit birdY p = true := by
  induction ps generalizing c with
  | nil => simp
  | cons p more ih =>
    rw [List.foldl_cons, ih]
    by_cases hit : pipeHit birdY p = true
    · simp [hit]
    · simp [hit]

theorem pipeHit_iff (birdY : ℚ) (p : Pipe) :
    pipeHit birdY p = true ↔
      80 + BIRD_SIZE / 2 > p.x ∧ 80 - BIRD_SIZE / 2 < p.x + PIPE_WIDTH ∧
        (birdY - BIRD_SIZE / 2 < p.height ∨ birdY + BIRD_SIZE / 2 > p.height + PIPE_GAP) := by
  simp [pipeHit, and_assoc]

theorem collided_iff (cH : ℚ) (s : Game) :
    collided cH s = true ↔
      s.birdY + BIRD_SIZE / 2 > cH ∨ s.birdY - BIRD_SIZE / 2 < 0 ∨
        ∃ p ∈ s.pipes, 80 + BIRD_SIZE / 2 > p.x ∧ 80 - BIRD_SIZE / 2 < p.x + PIPE_WIDTH ∧
          (s.birdY - BIRD_SIZE / 2 < p.height ∨ s.birdY + BIRD_SIZE / 2 > p.height + PIPE_GAP) := by
  unfold collided
  simp only
  split_ifs with h
  · constructor
    · intro _
      rcases h with h | h
      · exact Or.inl h
      · exact Or.inr (Or.inl h)
    · intro _; rfl
  · rw [foldl_pipeHit]
    simp only [Bool.false_eq_true, false_or, pipeHit_iff]
    constructor
    · intro hx; exact Or.inr (Or.inr hx)
    · rintro (h1 | h1 | h1)
      · exact absurd (Or.inl h1) h
      · exact absurd (Or.inr h1) h
      · exact h1

/-- C3: a tick that starts in Playing returns, and afterwards `gameState` is GameOver
exactly when, for the bird position and the pipes the tick leaves, the bird is below the
canvas, above it, or some pipe overlaps the bird's column while the bird is above the
gap top or below the gap bottom; otherwise `gameState` is still Playing. -/
theorem gameover_iff_collision (cH : ℚ) (random : Nat → ℚ) (s : Game)
    (hp : s.gameState = STATE_PLAYING) (hl : 2 ≤ s.pipes.length) :
    ∃ s', update cH random s = .ok s' ∧
      (s'.gameState = STATE_GAMEOVER ↔
        s'.birdY + BIRD_SIZE / 2 > cH ∨ s'.birdY - BIRD_SIZE / 2 < 0 ∨
          ∃ p ∈ s'.pipes, 80 + BIRD_SIZE / 2 > p.x ∧ 80 - BIRD_SIZE / 2 < p.x + PIPE_WIDTH ∧
            (s'.birdY - BIRD_SIZE / 2 < p.height ∨
              s'.birdY + BIRD_SIZE / 2 > p.height + PIPE_GAP)) ∧
      (s'.gameState ≠ STATE_GAMEOVER → s'.gameState = STATE_PLAYING) := by
  obtain ⟨m, hm, hu⟩ := update_eq_detect cH random s hp hl
  have hg : m.gameState = STATE_PLAYING := by
    rw [(recyclePipe_frame hm).1]
    simpa [movePipes] using hp
  refine ⟨_, hu, ?_, ?_⟩
  · simp only [detectCollision_birdY, detectCollision_pipes]
    rw [← collided_iff]
    unfold detectCollision
    split_ifs with hc
    · simp [hc]
    · simp [hc, hg]
  · unfold detectCollision
    split_ifs with hc
    · intro h; exact absurd rfl h
    · intro _; exact hg

theorem gameover_iff_collision_witness :
    ∃ s', update 600 (always (1 / 2)) afterPlayClick = .ok s' ∧
      (s'.gameState = STATE_GAMEOVER ↔
        s'.birdY + BIRD_SIZE / 2 > 600 ∨ s'.birdY - BIRD_SIZE / 2 < 0 ∨
          ∃ p ∈ s'.pipes, 80 + BIRD_SIZE / 2 > p.x ∧ 80 - BIRD_SIZE / 2 < p.x + PIPE_WIDTH ∧
            (s'.birdY - BIRD_SIZE / 2 < p.height ∨
              s'.birdY + BIRD_SIZE / 2 > p.height + PIPE_GAP)) ∧
      (s'.gameState ≠ STATE_GAMEOVER → s'.gameState = STATE_PLAYING) :=
  gameover_iff_collision 600 (always (1 / 2)) afterPlayClick afterPlayClick_playing
    (by decide!)

/-! ## C4 -/

/-- In a spaced window at most one pipe overlaps the bird's column. -/
theorem Spaced.overlap_unique {ps : List Pipe} (h : Spaced ps) {p q : Pipe}
    (hp : p ∈ ps) (hq : q ∈ ps)
    (hp1 : 80 + BIRD_SIZE / 2 > p.x) (hp2 : 80 - BIRD_SIZE / 2 < p.x + PIPE_WIDTH)
    (hq1 : 80 + BIRD_SIZE / 2 > q.x) (hq2 : 80 - BIRD_SIZE / 2 < q.x + PIPE_WIDTH) :
    p = q := by
  obtain ⟨a, b, c, rfl, hab, hbc⟩ := h
  simp only [BIRD_SIZE, PIPE_WIDTH] at hp1 hp2 hq1 hq2
  simp only [List.mem_cons, List.mem_singleton, List.not_mem_nil, or_false] at hp hq
  rcases hp with rfl | rfl | rfl <;> rcases hq with rfl | rfl | rfl <;>
    first
      | rfl
      | (exfalso; linarith)

/-- The gap-top boundary on a spaced window. -/
theorem gap_top_spaced (cH : ℚ) (random : Nat → ℚ) (s : Game)
    (hp : s.gameState = STATE_PLAYING) (hs : Spaced s.pipes) :
    ∃ s', update cH random s = .ok s' ∧
      ∀ p ∈ s'.pipes, 80 + BIRD_SIZE / 2 > p.x → 80 - BIRD_SIZE / 2 < p.x + PIPE_WIDTH →
        (s'.birdY + BIRD_SIZE / 2 ≤ cH → 0 ≤ s'.birdY - BIRD_SIZE / 2 →
          s'.birdY - BIRD_SIZE / 2 = p.height →
            s'.birdY + BIRD_SIZE / 2 ≤ p.height + PIPE_GAP ∧ collided cH s' = false ∧
              s'.gameState = STATE_PLAYING) ∧
        (s'.birdY - BIRD_SIZE / 2 = p.height - 1 →
          collided cH s' = true ∧ s'.gameState = STATE_GAMEOVER) := by
  obtain ⟨m, hm, hu, hsp⟩ := update_spaced cH random s hp hs
  have hg : m.gameState = STATE_PLAYING := by
    rw [(recyclePipe_frame hm).1]
    simpa [movePipes] using hp
  have hcol : ∀ b : Bool, collided cH (detectCollision cH m) = b ↔ collided cH m = b := by
    intro b
    have : collided cH (detectCollision cH m) = collided cH m := by
      unfold collided
      simp only [detectCollision_birdY, detectCollision_pipes]
    rw [this]
  refine ⟨_, hu, ?_⟩
  intro p hpm h1 h2
  simp only [detectCollision_pipes, detectCollision_birdY] at hpm ⊢
  constructor
  · intro hb1 hb2 htan
    have hbot : m.birdY + BIRD_SIZE / 2 ≤ p.height + PIPE_GAP := by
      simp only [BIRD_SIZE, PIPE_GAP] at htan ⊢
      linarith
    have hno : ¬ collided cH m = true := by
      rw [collided_iff]
      rintro (hx | hx | ⟨q, hqm, hq1, hq2, hq3⟩)
      · exact absurd hx (not_lt.mpr hb1)
      · exact absurd hx (not_lt.mpr hb2)
      · have hqp : p = q := hsp.overlap_unique hpm hqm h1 h2 hq1 hq2
        subst hqp
        rcases hq3 with hq3 | hq3
        · rw [htan] at hq3
          exact lt_irrefl _ hq3
        · exact absurd hq3 (not_lt.mpr hbot)
    have hno' : collided cH m = false := by simpa using hno
    refine ⟨hbot, (hcol false).mpr hno', ?_⟩
    unfold detectCollision
    rw [hno']
    simpa using hg
  · intro hpast
    have hyes : collided cH m = true := by
      rw [collided_iff]
      refine Or.inr (Or.inr ⟨p, hpm, h1, h2, Or.inl ?_⟩)
      rw [hpast]
      linarith
    refine ⟨(hcol true).mpr hyes, ?_⟩
    unfold detectCollision
    rw [hyes]
    rfl

/-- C4: the gap-top boundary is exact. In a reachable Playing state a tick returns, and
for every pipe it leaves overlapping the bird's column: if the bird is inside the canvas
and its top edge is exactly on the gap top, its bottom edge is inside the gap, no
collision is declared and the state is still Playing; if its top edge is one unit above
the gap top, a collision is declared and the state is GameOver. -/
theorem gap_top_exact (cH : ℚ) (ls : Storage) (random : Nat → ℚ) (s : Game)
    (hr : Reachable cH ls s) (hp : s.gameState = STATE_PLAYING) :
    ∃ s', update cH random s = .ok s' ∧
      ∀ p ∈ s'.pipes, 80 + BIRD_SIZE / 2 > p.x → 80 - BIRD_SIZE / 2 < p.x + PIPE_WIDTH →
        (s'.birdY + BIRD_SIZE / 2 ≤ cH → 0 ≤ s'.birdY - BIRD_SIZE / 2 →
          s'.birdY - BIRD_SIZE / 2 = p.height →
            s'.birdY + BIRD_SIZE / 2 ≤ p.height + PIPE_GAP ∧ collided cH s' = false ∧
              s'.gameState = STATE_PLAYING) ∧
        (s'.birdY - BIRD_SIZE / 2 = p.height - 1 →
          collided cH s' = true ∧ s'.gameState = STATE_GAMEOVER) :=
  gap_top_spaced cH random s hp (hr.inv.live (by simp [hp]) (by simp [hp]))

theorem gap_top_exact_witness :
    ∃ s', update 600 (always (1 / 2)) afterPlayClick = .ok s' ∧
      ∀ p ∈ s'.pipes, 80 + BIRD_SIZE / 2 > p.x → 80 - BIRD_SIZE / 2 < p.x + PIPE_WIDTH →
        (s'.birdY + BIRD_SIZE / 2 ≤ 600 → 0 ≤ s'.birdY - BIRD_SIZE / 2 →
          s'.birdY - BIRD_SIZE / 2 = p.height →
            s'.birdY + BIRD_SIZE / 2 ≤ p.height + PIPE_GAP ∧ collided 600 s' = false ∧
              s'.gameState = STATE_PLAYING) ∧
        (s'.birdY - BIRD_SIZE / 2 = p.height - 1 →
          collided 600 s' = true ∧ s'.gameState = STATE_GAMEOVER) :=
  gap_top_exact 600 emptyStorage (always (1 / 2)) afterPlayClick afterPlayClick_reachable
    afterPlayClick_playing

/-- The two sides of the boundary, evaluated: the tick from `beforeTangent` leaves the
bird's top edge at 284, on the gap top of the pipe at `x = 50`, and the state Playing;
the tick from `beforeOverlap` leaves it at 283 and the state GameOver. -/
theorem gap_top_examples :
    (update 600 (always (1 / 2)) beforeTangent).toOption.map
        (fun s => (s.birdY - BIRD_SIZE / 2, s.pipes.head?, s.gameState)) =
      some (284, some { x := 50, height := 284 }, STATE_PLAYING) ∧
    (update 600 (always (1 / 2)) beforeOverlap).toOption.map
        (fun s => (s.birdY - BIRD_SIZE / 2, s.pipes.head?, s.gameState)) =
      some (283, some { x := 50, height := 284 }, STATE_GAMEOVER) := by
  decide!

/-! ## C5 -/

/-- The velocity after the gravity stage when no auto-flap fires. -/
theorem applyGravity_birdVelocity (s : Game)
    (hno : s.spaceHeld = false ∨ s.initialGravity = true ∨
      s.autoFlapTick + 1 < AUTO_FLAP_INTERVAL) :
    (applyGravity s).birdVelocity =
      s.birdVelocity + (if s.initialGravity then INITIAL_GRAVITY else GRAVITY) := by
  simp only [applyGravity]
  split_ifs with h1 h2 h3 h4
  all_goals first
    | rfl
    | (exfalso
       simp only [Bool.and_eq_true, Bool.not_eq_true'] at h1
       rcases hno with h | h | h
       · rw [h] at h1; exact absurd h1.1 (by simp)
       · rw [h] at h1; exact absurd h1.2 (by simp)
       · omega)

/-- C5: a tick from Playing in which no auto-flap fires (space not held, or the grace
window active, or the auto-flap counter still short of its interval after this tick's
increment) returns; the new velocity is the old one plus the active gravity constant
(`INITIAL_GRAVITY` in the grace window, else `GRAVITY`), hence strictly larger, and the
new `birdY` is the old one plus the new velocity. -/
theorem gravity_tick (cH : ℚ) (random : Nat → ℚ) (s : Game)
    (hp : s.gameState = STATE_PLAYING) (hl : 2 ≤ s.pipes.length)
    (hno : s.spaceHeld = false ∨ s.initialGravity = true ∨
      s.autoFlapTick + 1 < AUTO_FLAP_INTERVAL) :
    ∃ s', update cH random s = .ok s' ∧
      s'.birdVelocity =
        s.birdVelocity + (if s.initialGravity then INITIAL_GRAVITY else GRAVITY) ∧
      s.birdVelocity < s'.birdVelocity ∧
      s'.birdY = s.birdY + s'.birdVelocity := by
  obtain ⟨m, hm, hu⟩ := update_eq_detect cH random s hp hl
  have hf := recyclePipe_frame hm
  have hv : m.birdVelocity =
      s.birdVelocity + (if s.initialGravity then INITIAL_GRAVITY else GRAVITY) := by
    rw [hf.2.2.1]
    simpa [movePipes] using applyGravity_birdVelocity s hno
  have hy : m.birdY = s.birdY + m.birdVelocity := by
    rw [hf.2.1, hf.2.2.1]
    simp [movePipes]
  refine ⟨_, hu, ?_, ?_, ?_⟩
  · simpa using hv
  · rw [detectCollision_birdVelocity, hv]
    split_ifs <;> norm_num [INITIAL_GRAVITY, GRAVITY]
  · simpa using hy

theorem gravity_tick_witness :
    ∃ s', update 600 (always (1 / 2)) afterPlayClick = .ok s' ∧
      s'.birdVelocity =
        afterPlayClick.birdVelocity +
          (if afterPlayClick.initialGravity then INITIAL_GRAVITY else GRAVITY) ∧
      afterPlayClick.birdVelocity < s'.birdVelocity ∧
      s'.birdY = afterPlayClick.birdY + s'.birdVelocity :=
  gravity_tick 600 (always (1 / 2)) afterPlayClick afterPlayClick_playing (by decide!)
    (Or.inl (by decide!))

/-! ## C6 -/

/-- A tick from Playing that starts with the grace window active and its timer at
`INITIAL_GRAVITY_DURATION` still adds `INITIAL_GRAVITY`, and only then ends the window. -/
theorem grace_window_last_tick (cH : ℚ) (random : Nat → ℚ) (s : Game)
    (hp : s.gameState = STATE_PLAYING) (hl : 2 ≤ s.pipes.length)
    (hg : s.initialGravity = true) (ht : s.initialGravityTimer = INITIAL_GRAVITY_DURATION) :
    ∃ s', update cH random s = .ok s' ∧
      s'.birdVelocity = s.birdVelocity + INITIAL_GRAVITY ∧ s'.initialGravity = false := by
  obtain ⟨m, hm, hu⟩ := update_eq_detect cH random s hp hl
  have hf := recyclePipe_frame hm
  refine ⟨_, hu, ?_, ?_⟩
  · rw [detectCollision_birdVelocity, hf.2.2.1]
    have := applyGravity_birdVelocity s (Or.inr (Or.inl hg))
    rw [hg] at this
    simpa [movePipes] using this
  · rw [detectCollision_initialGravity, hf.2.2.2.1]
    simp [movePipes, moveBird, hg, ht]

theorem updates_not_playing (cH : ℚ) (rs : List (Nat → ℚ)) (s : Game)
    (h : s.gameState ≠ STATE_PLAYING) : updates cH rs s = .ok s := by
  induction rs with
  | nil => rfl
  | cons random more ih => simp [updates, update_not_playing cH random s h, ih]

/-- The grace-window flags after one tick from Playing. -/
theorem update_grace (cH : ℚ) (random : Nat → ℚ) (s : Game)
    (hp : s.gameState = STATE_PLAYING) (hl : 2 ≤ s.pipes.length) :
    ∃ s', update cH random s = .ok s' ∧ s'.pipes.length = s.pipes.length ∧
      (s.initialGravity = true →
        s'.initialGravityTimer = s.initialGravityTimer + 1 ∧
          s'.initialGravity = decide (s.initialGravityTimer + 1 ≤ INITIAL_GRAVITY_DURATION)) ∧
      (s.initialGravity = false → s'.initialGravity = false) := by
  obtain ⟨s1, hu1, hlen, -, -⟩ := update_score cH random s hp hl
  obtain ⟨m, hm, hu⟩ := update_eq_detect cH random s hp hl
  have hf := recyclePipe_frame hm
  rw [hu] at hu1
  cases hu1
  refine ⟨_, hu, hlen, ?_, ?_⟩
  · intro hg
    rw [detectCollision_initialGravityTimer, detectCollision_initialGravity, hf.2.2.2.1,
      hf.2.2.2.2.1]
    by_cases ht : s.initialGravityTimer + 1 > INITIAL_GRAVITY_DURATION
    · simp [movePipes, moveBird, hg, ht]
    · simp [movePipes, moveBird, hg, ht]
      omega
  · intro hg
    rw [detectCollision_initialGravity, hf.2.2.2.1]
    simp [movePipes, moveBird, hg]

/-- Once the grace window is over it stays over. -/
theorem updates_grace_over (cH : ℚ) (rs : List (Nat → ℚ)) :
    ∀ s : Game, 2 ≤ s.pipes.length → s.initialGravity = false →
      ∃ sN, updates cH rs s = .ok sN ∧ sN.initialGravity = false := by
  induction rs with
  | nil => intro s _ hg; exact ⟨s, rfl, hg⟩
  | cons random more ih =>
    intro s hl hg
    by_cases hp : s.gameState = STATE_PLAYING
    · obtain ⟨s1, hu, hlen, -, hoff⟩ := update_grace cH random s hp hl
      obtain ⟨sN, hrun, hN⟩ := ih s1 (by rw [hlen]; exact hl) (hoff hg)
      exact ⟨sN, by simp [updates, hu, hrun], hN⟩
    · exact ⟨s, updates_not_playing cH _ s hp, hg⟩

/-- A run of ticks that starts with the grace window active and its timer at `t`, and is
still in Playing at its end, leaves the window active exactly when `t` plus the number of
ticks is at most `INITIAL_GRAVITY_DURATION`. -/
theorem updates_grace (cH : ℚ) (rs : List (Nat → ℚ)) :
    ∀ s : Game, 2 ≤ s.pipes.length → s.initialGravity = true →
      s.initialGravityTimer ≤ INITIAL_GRAVITY_DURATION →
      ∃ sN, updates cH rs s = .ok sN ∧
        (sN.gameState = STATE_PLAYING →
          (sN.initialGravity = true ↔
            s.initialGravityTimer + rs.length ≤ INITIAL_GRAVITY_DURATION)) := by
  induction rs with
  | nil =>
    intro s _ hg ht
    exact ⟨s, rfl, fun _ => by simp [hg, ht]⟩
  | cons random more ih =>
    intro s hl hg ht
    by_cases hp : s.gameState = STATE_PLAYING
    · obtain ⟨s1, hu, hlen, hon, -⟩ := update_grace cH random s hp hl
      obtain ⟨ht1, hg1⟩ := hon hg
      by_cases hlast : s.initialGravityTimer + 1 ≤ INITIAL_GRAVITY_DURATION
      · obtain ⟨sN, hrun, hN⟩ := ih s1 (by rw [hlen]; exact hl)
          (by rw [hg1]; simpa using hlast) (by rw [ht1]; exact hlast)
        refine ⟨sN, by simp [updates, hu, hrun], fun hpN => ?_⟩
        rw [hN hpN, ht1, List.length_cons]
        omega
      · obtain ⟨sN, hrun, hN⟩ := updates_grace_over cH more s1 (by rw [hlen]; exact hl)
          (by rw [hg1]; simpa using hlast)
        refine ⟨sN, by simp [updates, hu, hrun], fun _ => ?_⟩
        rw [hN, List.length_cons]
        constructor
        · intro h; simp at h
        · intro h; omega
    · refine ⟨s, updates_not_playing cH _ s hp, fun hpN => absurd hpN hp⟩

/-- After `resetGame`, a run of `k` ticks returns, and if it is still in Playing the
grace window is active after it exactly when `k ≤ INITIAL_GRAVITY_DURATION`: the next
tick, number `k + 1`, takes `INITIAL_GRAVITY` exactly when `k + 1 ≤ 61`. -/
theorem grace_window_ticks (cH : ℚ) (random : Nat → ℚ) (rs : List (Nat → ℚ)) (s : Game) :
    ∃ sN, updates cH rs { resetGame cH random s with gameState := STATE_PLAYING } = .ok sN ∧
      (sN.gameState = STATE_PLAYING →
        (sN.initialGravity = true ↔ rs.length ≤ INITIAL_GRAVITY_DURATION)) := by
  obtain ⟨sN, hrun, hN⟩ := updates_grace cH rs
    { resetGame cH random s with gameState := STATE_PLAYING }
    (by simp [resetGame_pipes]) (by simp [resetGame]) (by simp [resetGame])
  refine ⟨sN, hrun, fun hp => ?_⟩
  rw [hN hp]
  simp [resetGame]

/-- C6, evaluated: after `resetGame` (the Play click) the run stays in Playing; after 60
ticks the grace window is still active with its timer at 60, so the 61st tick adds
`INITIAL_GRAVITY` again (velocity `61 * INITIAL_GRAVITY`), and `GRAVITY` is first added
on the 62nd tick. -/
theorem grace_window_is_61_ticks :
    sessionAfter 600 (List.replicate 60 (always (1 / 2))) afterPlayClick =
      some (STATE_PLAYING, 60 * INITIAL_GRAVITY, true, 60) ∧
    sessionAfter 600 (List.replicate 61 (always (1 / 2))) afterPlayClick =
      some (STATE_PLAYING, 61 * INITIAL_GRAVITY, false, 61) ∧
    sessionAfter 600 (List.replicate 62 (always (1 / 2))) afterPlayClick =
      some (STATE_PLAYING, 61 * INITIAL_GRAVITY + GRAVITY, false, 61) := by
  decide!

/-! ## C7 -/

/-- The range of `newPipeHeight` over `r` in `[0, 1)`. -/
theorem newPipeHeight_bounds (cH r : ℚ) (hc : PIPE_GAP + 100 ≤ cH) (h0 : 0 ≤ r) (h1 : r < 1) :
    50 ≤ newPipeHeight cH r ∧ newPipeHeight cH r ≤ cH - PIPE_GAP - 50 := by
  unfold newPipeHeight
  have hw : 0 ≤ cH - PIPE_GAP - 100 := by linarith
  constructor
  · nlinarith [mul_nonneg h0 hw]
  · nlinarith [mul_nonneg (sub_nonneg.mpr h1.le) hw]

/-- The pipe a recycling tick appends. -/
theorem update_recycled_last (cH : ℚ) (random : Nat → ℚ) (s : Game)
    (hp : s.gameState = STATE_PLAYING) (hl : 2 ≤ s.pipes.length)
    (hd : recycleDue s = true) :
    ∃ s', update cH random s = .ok s' ∧ ∃ p, s'.pipes.getLast? = some p ∧
      p.height = newPipeHeight cH (random 0) := by
  obtain ⟨p, q, rest, hps⟩ : ∃ p q rest, s.pipes = p :: q :: rest := by
    match h : s.pipes with
    | [] => simp [h] at hl
    | [_] => simp [h] at hl
    | p :: q :: rest => exact ⟨p, q, rest, rfl⟩
  obtain ⟨last, hlast⟩ : ∃ last,
      (List.map (fun pipe : Pipe => ({ pipe with x := pipe.x - PIPE_SPEED } : Pipe))
        (q :: rest)).getLast? = some last := by
    rw [List.getLast?_eq_getLast _ (by simp)]
    exact ⟨_, rfl⟩
  have hd' : p.x - PIPE_SPEED < -PIPE_WIDTH := by
    simpa [recycleDue, hps] using hd
  have hend : ∀ (a x : Pipe) (l : List Pipe), (a :: (l ++ [x])).getLast? = some x := by
    intro a x l
    rw [← List.cons_append, List.getLast?_concat]
  by_cases hh : s.score + 1 > s.highScore
  · refine ⟨_, by
      simp only [update, hp, ne_eq, not_true_eq_false, ite_false, recyclePipe, movePipes,
        moveBird_pipes, applyGravity_pipes, hps, List.map_cons, hd', ite_true, hlast,
        moveBird_score, applyGravity_score, moveBird_highScore, applyGravity_highScore, hh]
      rfl, ?_⟩
    rw [detectCollision_pipes]
    exact ⟨_, hend _ _ _, rfl⟩
  · refine ⟨_, by
      simp only [update, hp, ne_eq, not_true_eq_false, ite_false, recyclePipe, movePipes,
        moveBird_pipes, applyGravity_pipes, hps, List.map_cons, hd', ite_true, hlast,
        moveBird_score, applyGravity_score, moveBird_highScore, applyGravity_highScore, hh]
      rfl, ?_⟩
    rw [detectCollision_pipes]
    exact ⟨_, hend _ _ _, rfl⟩

/-- C7 as stated fails: on a canvas 600 high the random value 9/10 gives a gap top of
338, above `canvas.height - PIPE_GAP - 100 = 320`, both in `resetGame` and in the recycle
step of `update`. -/
theorem height_above_claimed_bound :
    (0 : ℚ) ≤ 9 / 10 ∧ (9 / 10 : ℚ) < 1 ∧
    (∃ p ∈ (resetGame 600 (always (9 / 10)) (load 600 emptyStorage)).pipes,
      ¬ p.height ≤ 600 - PIPE_GAP - 100) ∧
    ((update 600 (always (9 / 10)) beforeRecycle).toOption.bind
        (fun s => s.pipes.getLast?.map (fun p => decide (p.height ≤ 600 - PIPE_GAP - 100))) =
      some false) := by
  decide!

/-- C7, amended: when `canvas.height ≥ PIPE_GAP + 100` and the random source yields
values in `[0, 1)`, every pipe `resetGame` creates, and the pipe a recycling `update` tick
appends, has its gap top in the closed interval `[50, canvas.height - PIPE_GAP - 50]`. -/
theorem new_pipe_height_bounds (cH : ℚ) (random : Nat → ℚ) (s : Game)
    (hc : PIPE_GAP + 100 ≤ cH) (hr : ∀ k, 0 ≤ random k ∧ random k < 1) :
    (∀ p ∈ (resetGame cH random s).pipes,
      50 ≤ p.height ∧ p.height ≤ cH - PIPE_GAP - 50) ∧
    (s.gameState = STATE_PLAYING → 2 ≤ s.pipes.length → recycleDue s = true →
      ∃ s' p, update cH random s = .ok s' ∧ s'.pipes.getLast? = some p ∧
        p.height = newPipeHeight cH (random 0) ∧
        50 ≤ p.height ∧ p.height ≤ cH - PIPE_GAP - 50) := by
  constructor
  · intro p hp
    rw [resetGame_pipes] at hp
    simp only [List.mem_cons, List.mem_singleton, List.not_mem_nil, or_false] at hp
    rcases hp with rfl | rfl | rfl
    · exact newPipeHeight_bounds cH _ hc (hr 0).1 (hr 0).2
    · exact newPipeHeight_bounds cH _ hc (hr 1).1 (hr 1).2
    · exact newPipeHeight_bounds cH _ hc (hr 2).1 (hr 2).2
  · intro hp hl hd
    obtain ⟨s', hu, p, hlast, hh⟩ := update_recycled_last cH random s hp hl hd
    refine ⟨s', p, hu, hlast, hh, ?_⟩
    rw [hh]
    exact newPipeHeight_bounds cH _ hc (hr 0).1 (hr 0).2

theorem new_pipe_height_bounds_witness :
    (∀ p ∈ (resetGame 600 (always (1 / 2)) beforeRecycle).pipes,
      50 ≤ p.height ∧ p.height ≤ 600 - PIPE_GAP - 50) ∧
    (beforeRecycle.gameState = STATE_PLAYING → 2 ≤ beforeRecycle.pipes.length →
      recycleDue beforeRecycle = true →
      ∃ s' p, update 600 (always (1 / 2)) beforeRecycle = .ok s' ∧
        s'.pipes.getLast? = some p ∧
        p.height = newPipeHeight 600 (always (1 / 2) 0) ∧
        50 ≤ p.height ∧ p.height ≤ 600 - PIPE_GAP - 50) :=
  new_pipe_height_bounds 600 (always (1 / 2)) beforeRecycle (by norm_num [PIPE_GAP])
    (fun _ => by norm_num [always])

/-! ## C8 -/

/-- A click inside the box of skin `i`, off the Back button, reaches the body of the
selection loop for skin `i`. -/
theorem clickHandler_shop (cH mx my : ℚ) (random : Nat → ℚ) (s : Game) (i : Nat)
    (skin : BirdSkin) (hskin : birdSkins[i]? = some skin)
    (hshop : s.showShop = true) (hback : inRect mx my 40 (cH - 50) 80 40 = false)
    (hbox : inRect mx my (60 + ((i % 4 : Nat) : ℚ) * 100)
      (120 + ((i / 4 : Nat) : ℚ) * 140) 64 64 = true) :
    clickHandler cH mx my random s = chooseBird i skin s := by
  have hi : i < 3 := by
    by_contra hge
    have : birdSkins[i]? = none := by
      rw [List.getElem?_eq_none_iff]
      simpa [birdSkins] using hge
    rw [this] at hskin
    cases hskin
  unfold clickHandler
  rw [if_neg (by simp [hshop]), if_pos hshop, hback]
  simp only [Bool.false_eq_true, ite_false]
  simp only [inRect, Bool.and_eq_true, decide_eq_true_eq] at hbox
  obtain ⟨⟨⟨hx1, hx2⟩, hy1⟩, hy2⟩ := hbox
  interval_cases i
  · simp only [birdSkins, List.getElem?_cons_zero, Option.some.injEq] at hskin
    subst hskin
    norm_num at hx1 hx2 hy1 hy2
    have : inRect mx my (60 + ((0 % 4 : Nat) : ℚ) * 100) (120 + ((0 / 4 : Nat) : ℚ) * 140)
        64 64 = true := by
      simp only [inRect, Bool.and_eq_true, decide_eq_true_eq]
      norm_num
      exact ⟨⟨⟨hx1, hx2⟩, hy1⟩, hy2⟩
    simp only [birdSkins, List.enum, List.enumFrom, selectBird, this, ite_true]
  · simp only [birdSkins, List.getElem?_cons_succ, List.getElem?_cons_zero,
      Option.some.injEq] at hskin
    subst hskin
    norm_num at hx1 hx2 hy1 hy2
    have h0 : inRect mx my (60 + ((0 % 4 : Nat) : ℚ) * 100) (120 + ((0 / 4 : Nat) : ℚ) * 140)
        64 64 = false := by
      simp only [inRect, Bool.and_eq_false_iff, decide_eq_false_iff_not]
      norm_num
      left; left; right; linarith
    have h1 : inRect mx my (60 + ((1 % 4 : Nat) : ℚ) * 100) (120 + ((1 / 4 : Nat) : ℚ) * 140)
        64 64 = true := by
      simp only [inRect, Bool.and_eq_true, decide_eq_true_eq]
      norm_num
      exact ⟨⟨⟨hx1, hx2⟩, hy1⟩, hy2⟩
    simp only [birdSkins, List.enum, List.enumFrom, selectBird, h0, h1, ite_true,
      Bool.false_eq_true, ite_false]
  · simp only [birdSkins, List.getElem?_cons_succ, List.getElem?_cons_zero,
      Option.some.injEq] at hskin
    subst hskin
    norm_num at hx1 hx2 hy1 hy2
    have h0 : inRect mx my (60 + ((0 % 4 : Nat) : ℚ) * 100) (120 + ((0 / 4 : Nat) : ℚ) * 140)
        64 64 = false := by
      simp only [inRect, Bool.and_eq_false_iff, decide_eq_false_iff_not]
      norm_num
      left; left; right; linarith
    have h1 : inRect mx my (60 + ((1 % 4 : Nat) : ℚ) * 100) (120 + ((1 / 4 : Nat) : ℚ) * 140)
        64 64 = false := by
      simp only [inRect, Bool.and_eq_false_iff, decide_eq_false_iff_not]
      norm_num
      left; left; right; linarith
    have h2 : inRect mx my (60 + ((2 % 4 : Nat) : ℚ) * 100) (120 + ((2 / 4 : Nat) : ℚ) * 140)
        64 64 = true := by
      simp only [inRect, Bool.and_eq_true, decide_eq_true_eq]
      norm_num
      exact ⟨⟨⟨hx1, hx2⟩, hy1⟩, hy2⟩
    simp only [birdSkins, List.enum, List.enumFrom, selectBird, h0, h1, h2, ite_true,
      Bool.false_eq_true, ite_false]

/-- C8: a shop click on a locked skin `i` (inside its box, off the Back button). If
`score ≥ cost`, `i` is appended to `unlockedBirds`, `selectedBird` becomes `i` and both
are written to `localStorage`; if `score < cost` nothing changes at all. -/
theorem shop_click_locked (cH mx my : ℚ) (random : Nat → ℚ) (s : Game) (i : Nat)
    (skin : BirdSkin) (hskin : birdSkins[i]? = some skin)
    (hshop : s.showShop = true) (hback : inRect mx my 40 (cH - 50) 80 40 = false)
    (hbox : inRect mx my (60 + ((i % 4 : Nat) : ℚ) * 100)
      (120 + ((i / 4 : Nat) : ℚ) * 140) 64 64 = true)
    (hlocked : i ∉ s.unlockedBirds) :
    (s.score ≥ skin.cost →
      (clickHandler cH mx my random s).unlockedBirds = s.unlockedBirds ++ [i] ∧
      i ∈ (clickHandler cH mx my random s).unlockedBirds ∧
      (clickHandler cH mx my random s).selectedBird = i ∧
      (clickHandler cH mx my random s).localStorage.unlockedBirds =
        some (s.unlockedBirds ++ [i]) ∧
      (clickHandler cH mx my random s).localStorage.selectedBird = some i) ∧
    (s.score < skin.cost →
      clickHandler cH mx my random s = s) := by
  rw [clickHandler_shop cH mx my random s i skin hskin hshop hback hbox]
  constructor
  · intro hge
    simp [chooseBird, hlocked, hge]
  · intro hlt
    simp [chooseBird, hlocked, not_le.mpr hlt]

theorem shop_click_locked_witness :
    ((shopWithScore 25).score ≥ (20 : Int) →
      (clickHandler 600 170 130 (always 0) (shopWithScore 25)).unlockedBirds =
        (shopWithScore 25).unlockedBirds ++ [1] ∧
      1 ∈ (clickHandler 600 170 130 (always 0) (shopWithScore 25)).unlockedBirds ∧
      (clickHandler 600 170 130 (always 0) (shopWithScore 25)).selectedBird = 1 ∧
      (clickHandler 600 170 130 (always 0) (shopWithScore 25)).localStorage.unlockedBirds =
        some ((shopWithScore 25).unlockedBirds ++ [1]) ∧
      (clickHandler 600 170 130 (always 0) (shopWithScore 25)).localStorage.selectedBird =
        some 1) ∧
    ((shopWithScore 25).score < (20 : Int) →
      clickHandler 600 170 130 (always 0) (shopWithScore 25) = shopWithScore 25) :=
  shop_click_locked 600 170 130 (always 0) (shopWithScore 25) 1 { frames := 8, cost := 20 }
    rfl (by decide!) (by decide!) (by decide!) (by decide!)

/-- The scenario of C8, evaluated on the skin that costs 20: with `score = 15` the click
changes neither the unlocked list nor the selection nor what is stored, with
`score = 25` the skin is unlocked, selected and stored. -/
theorem shop_click_scenario :
    ((clickHandler 600 170 130 (always 0) (shopWithScore 15)).unlockedBirds,
      (clickHandler 600 170 130 (always 0) (shopWithScore 15)).selectedBird,
      (clickHandler 600 170 130 (always 0) (shopWithScore 15)).localStorage.unlockedBirds,
      (clickHandler 600 170 130 (always 0) (shopWithScore 15)).localStorage.selectedBird) =
      ([0], 0, none, none) ∧
    ((clickHandler 600 170 130 (always 0) (shopWithScore 25)).unlockedBirds,
      (clickHandler 600 170 130 (always 0) (shopWithScore 25)).selectedBird,
      (clickHandler 600 170 130 (always 0) (shopWithScore 25)).localStorage.unlockedBirds,
      (clickHandler 600 170 130 (always 0) (shopWithScore 25)).localStorage.selectedBird) =
      ([0, 1], 1, some [0, 1], some 1) := by
  decide!

/-! ## C9 -/

theorem prefsOk_chooseBird (i : Nat) (skin : BirdSkin) {s : Game} (h : PrefsOk s) :
    PrefsOk (chooseBird i skin s) := by
  obtain ⟨hsel, h0, hnd⟩ := h
  unfold FlappyBird.chooseBird
  by_cases hi : i ∈ s.unlockedBirds
  · have hc : ¬ ¬ s.unlockedBirds.contains i = true := by simpa using hi
    rw [if_neg hc]
    exact ⟨hi, h0, hnd⟩
  · have hc : ¬ s.unlockedBirds.contains i = true := by simpa using hi
    rw [if_pos hc]
    by_cases hcost : s.score ≥ skin.cost
    · rw [if_pos hcost]
      refine ⟨List.mem_append_right _ (List.mem_singleton_self i),
        List.mem_append_left _ h0, ?_⟩
      show (s.unlockedBirds ++ [i]).Nodup
      rw [List.nodup_append]
      exact ⟨hnd, List.nodup_singleton i, by
        intro a ha hb
        rw [List.mem_singleton] at hb
        exact hi (hb ▸ ha)⟩
    · rw [if_neg hcost]
      exact ⟨hsel, h0, hnd⟩

theorem prefsOk_selectBird (mx my : ℚ) (l : List (Nat × BirdSkin)) {s : Game}
    (h : PrefsOk s) : PrefsOk (selectBird mx my l s) := by
  induction l with
  | nil => exact h
  | cons p more ih =>
    obtain ⟨i, skin⟩ := p
    simp only [FlappyBird.selectBird]
    split_ifs
    · exact prefsOk_chooseBird i skin h
    · exact ih

theorem prefsOk_clickHandler (cH mx my : ℚ) (random : Nat → ℚ) {s : Game} (h : PrefsOk s) :
    PrefsOk (clickHandler cH mx my random s) := by
  unfold FlappyBird.clickHandler
  split_ifs
  · exact h
  · exact h
  · exact h
  · exact h
  · exact h
  · exact prefsOk_selectBird mx my _ h
  · exact h

theorem prefsOk_keydownHandler (cH : ℚ) (code : Key) (random : Nat → ℚ) {s : Game}
    (h : PrefsOk s) : PrefsOk (keydownHandler cH code random s) := by
  unfold FlappyBird.keydownHandler
  split_ifs <;> exact h

theorem prefsOk_keyupHandler (code : Key) {s : Game} (h : PrefsOk s) :
    PrefsOk (keyupHandler code s) := by
  unfold FlappyBird.keyupHandler
  split_ifs <;> exact h

theorem countdownFrame_prefs (clock : Nat → ℚ) (s : Game) :
    (countdownFrame clock s).unlockedBirds = s.unlockedBirds ∧
      (countdownFrame clock s).selectedBird = s.selectedBird := by
  unfold countdownFrame
  split_ifs
  · split
    · exact ⟨rfl, rfl⟩
    · split_ifs <;> exact ⟨rfl, rfl⟩
  · exact ⟨rfl, rfl⟩

theorem prefsOk_gameLoop (cH : ℚ) (clock random : Nat → ℚ) {s : Game} (hi : Inv s)
    (h : PrefsOk s) : PrefsOk (gameLoop cH clock random s) := by
  unfold FlappyBird.gameLoop
  split_ifs with h1 h2 h3
  · obtain ⟨hu, hs⟩ := countdownFrame_prefs clock s
    unfold PrefsOk requestAnimationFrame
    simp only
    rw [hu, hs]
    exact h
  · exact h
  · by_cases hp : s.gameState = STATE_PLAYING
    · obtain ⟨m, hm, hu, -⟩ :=
        update_spaced cH random s hp (hi.live (by simp [hp]) (by simp [hp]))
      have hf := recyclePipe_frame hm
      rw [hu]
      unfold PrefsOk requestAnimationFrame
      simp only [detectCollision_unlockedBirds, detectCollision_selectedBird]
      rw [hf.2.2.2.2.2.1, hf.2.2.2.2.2.2.1]
      simpa [movePipes] using h
    · rw [update_not_playing cH random s hp]
      exact h
  · exact h

theorem prefsOk_step (cH : ℚ) (e : Event) {s : Game} (hi : Inv s) (h : PrefsOk s) :
    PrefsOk (step cH s e) := by
  cases e with
  | click mx my random => exact prefsOk_clickHandler cH mx my random h
  | keydown code random => exact prefsOk_keydownHandler cH code random h
  | keyup code => exact prefsOk_keyupHandler code h
  | frame clock random =>
    simp only [FlappyBird.step]
    split_ifs
    · exact prefsOk_gameLoop cH clock random ⟨hi.spaced, hi.live, hi.countdown⟩ h
    · exact h

/-- C9: starting from the default preferences (`unlockedBirds = [0]`,
`selectedBird = 0`), in every state reachable by clicks, key events and frames the
selected skin is unlocked, skin 0 is unlocked and no skin is listed twice; in particular
choosing skin 0 never appends to the list (skin 0 is never purchased). -/
theorem prefs_invariant (cH : ℚ) (ls : Storage) (s : Game)
    (hu : (load cH ls).unlockedBirds = [0]) (hsel : (load cH ls).selectedBird = 0)
    (hr : Reachable cH ls s) :
    s.selectedBird ∈ s.unlockedBirds ∧ 0 ∈ s.unlockedBirds ∧ s.unlockedBirds.Nodup ∧
      ∀ skin, (chooseBird 0 skin s).unlockedBirds = s.unlockedBirds := by
  have hok : PrefsOk s := by
    induction hr with
    | boot clock random =>
      exact prefsOk_gameLoop cH clock random (inv_load cH ls)
        (by unfold PrefsOk; rw [hu, hsel]; simp)
    | step e hprev ih => exact prefsOk_step cH e hprev.inv ih
  refine ⟨hok.1, hok.2.1, hok.2.2, fun skin => ?_⟩
  simp [FlappyBird.chooseBird, hok.2.1]

theorem prefs_invariant_witness :
    afterPlayClick.selectedBird ∈ afterPlayClick.unlockedBirds ∧
      0 ∈ afterPlayClick.unlockedBirds ∧ afterPlayClick.unlockedBirds.Nodup ∧
      ∀ skin, (chooseBird 0 skin afterPlayClick).unlockedBirds = afterPlayClick.unlockedBirds :=
  prefs_invariant 600 emptyStorage afterPlayClick rfl rfl afterPlayClick_reachable

/-! ## C10 -/

/-- The quit key from a state whose `gameState` is Paused, with or without the pause
countdown running, leaves Quit with no countdown running and touches nothing else. -/
theorem keydown_quit_of_paused (cH : ℚ) (random : Nat → ℚ) (s : Game)
    (hp : s.gameState = STATE_PAUSED) :
    keydownHandler cH Key.KeyQ random s =
      { s with pauseCountdownActive := false, gameState := STATE_QUIT } := by
  unfold keydownHandler
  rw [if_neg (by simp [hp])]
  by_cases ha : s.pauseCountdownActive = true
  · rw [if_pos ha, if_pos rfl]
  · rw [if_neg ha, if_pos hp, if_neg (by decide), if_pos rfl]
    have : s.pauseCountdownActive = false := by simpa using ha
    rw [← this]

/-- C10: in a reachable state that is Paused or in the pause countdown, the quit key
followed by a run of `gameLoop` leaves Menu with a reset session: `score = 0`,
`birdY = canvas.height / 2`, `birdVelocity = 0`, exactly three new pipes at
`x = 400, 600, 800` with freshly drawn gap tops, the grace window restarted
(`initialGravity` true, timer 0), no countdown running, and `highScore` unchanged. -/
theorem quit_resets_session (cH : ℚ) (ls : Storage) (clock random : Nat → ℚ) (s : Game)
    (hr : Reachable cH ls s)
    (hp : s.gameState = STATE_PAUSED ∨ s.pauseCountdownActive = true) :
    (quitThenFrame cH clock random s).gameState = STATE_MENU ∧
    (quitThenFrame cH clock random s).score = 0 ∧
    (quitThenFrame cH clock random s).birdY = cH / 2 ∧
    (quitThenFrame cH clock random s).birdVelocity = 0 ∧
    (quitThenFrame cH clock random s).pipes =
      [{ x := 400, height := newPipeHeight cH (random 0) },
       { x := 600, height := newPipeHeight cH (random 1) },
       { x := 800, height := newPipeHeight cH (random 2) }] ∧
    (quitThenFrame cH clock random s).pipes.length = 3 ∧
    (quitThenFrame cH clock random s).initialGravity = true ∧
    (quitThenFrame cH clock random s).initialGravityTimer = 0 ∧
    (quitThenFrame cH clock random s).pauseCountdownActive = false ∧
    (quitThenFrame cH clock random s).highScore = s.highScore := by
  have hpaused : s.gameState = STATE_PAUSED := by
    rcases hp with hp | hp
    · exact hp
    · exact hr.inv.countdown hp
  have hq : quitThenFrame cH clock random s =
      { resetGame cH random
          { s with pauseCountdownActive := false, gameState := STATE_QUIT } with
        gameState := STATE_MENU } := by
    unfold quitThenFrame
    rw [keydown_quit_of_paused cH random s hpaused]
    unfold gameLoop
    rw [if_neg (by simp), if_pos rfl]
  rw [hq]
  refine ⟨rfl, rfl, rfl, rfl, ?_, ?_, rfl, rfl, rfl, rfl⟩
  · exact resetGame_pipes cH random
      { s with pauseCountdownActive := false, gameState := STATE_QUIT }
  · exact (resetGame_spaced cH random
      { s with pauseCountdownActive := false, gameState := STATE_QUIT }).length

theorem quit_resets_session_witness :
    (quitThenFrame 600 (always 0) (always (1 / 2)) countdownExample).gameState = STATE_MENU ∧
    (quitThenFrame 600 (always 0) (always (1 / 2)) countdownExample).score = 0 ∧
    (quitThenFrame 600 (always 0) (always (1 / 2)) countdownExample).birdY = 600 / 2 ∧
    (quitThenFrame 600 (always 0) (always (1 / 2)) countdownExample).birdVelocity = 0 ∧
    (quitThenFrame 600 (always 0) (always (1 / 2)) countdownExample).pipes =
      [{ x := 400, height := newPipeHeight 600 (always (1 / 2) 0) },
       { x := 600, height := newPipeHeight 600 (always (1 / 2) 1) },
       { x := 800, height := newPipeHeight 600 (always (1 / 2) 2) }] ∧
    (quitThenFrame 600 (always 0) (always (1 / 2)) countdownExample).pipes.length = 3 ∧
    (quitThenFrame 600 (always 0) (always (1 / 2)) countdownExample).initialGravity = true ∧
    (quitThenFrame 600 (always 0) (always (1 / 2)) countdownExample).initialGravityTimer = 0 ∧
    (quitThenFrame 600 (always 0) (always (1 / 2)) countdownExample).pauseCountdownActive =
      false ∧
    (quitThenFrame 600 (always 0) (always (1 / 2)) countdownExample).highScore =
      countdownExample.highScore :=
  quit_resets_session 600 emptyStorage (always 0) (always (1 / 2)) countdownExample
    (Reachable.step _ (Reachable.step _ afterPlayClick_reachable))
    (Or.inr (by decide!))

/-- The two starting points of C10, evaluated: `pausedExample` is Paused with no
countdown, `countdownExample` is in the countdown (still Paused, counter 3), and from
both the quit key and a frame lead to Menu with score 0. -/
theorem quit_examples :
    (pausedExample.gameState, pausedExample.pauseCountdownActive) = (STATE_PAUSED, false) ∧
    (countdownExample.gameState, countdownExample.pauseCountdownActive,
      countdownExample.pauseCountdown) = (STATE_PAUSED, true, 3) ∧
    ((quitThenFrame 600 (always 0) (always (1 / 2)) pausedExample).gameState,
      (quitThenFrame 600 (always 0) (always (1 / 2)) pausedExample).score) =
        (STATE_MENU, 0) ∧
    ((quitThenFrame 600 (always 0) (always (1 / 2)) countdownExample).gameState,
      (quitThenFrame 600 (always 0) (always (1 / 2)) countdownExample).score) =
        (STATE_MENU, 0) := by
  decide!

/-! ## What one run of `gameLoop` does, case by case -/

theorem gameLoop_countdown (cH : ℚ) (clock random : Nat → ℚ) (s : Game)
    (ha : s.pauseCountdownActive = true) :
    gameLoop cH clock random s = requestAnimationFrame (countdownFrame clock s) := by
  unfold gameLoop
  rw [if_pos ha]

theorem gameLoop_quit (cH : ℚ) (clock random : Nat → ℚ) (s : Game)
    (ha : s.pauseCountdownActive = false) (hq : s.gameState = STATE_QUIT) :
    gameLoop cH clock random s = { resetGame cH random s with gameState := STATE_MENU } := by
  unfold gameLoop
  rw [if_neg (by simp [ha]), if_pos hq]

theorem gameLoop_playing (cH : ℚ) (clock random : Nat → ℚ) (s : Game)
    (ha : s.pauseCountdownActive = false) (hp : s.gameState = STATE_PLAYING)
    (hs : Spaced s.pipes) :
    ∃ m, recyclePipe cH random (movePipes (moveBird (applyGravity s))) = .ok m ∧
      Spaced m.pipes ∧
      gameLoop cH clock random s = requestAnimationFrame (detectCollision cH m) := by
  obtain ⟨m, hm, hu, hsp⟩ := update_spaced cH random s hp hs
  refine ⟨m, hm, hsp, ?_⟩
  unfold gameLoop
  rw [if_neg (by simp [ha]), if_neg (by simp [hp]), if_pos (by simp [hp]), hu]

theorem gameLoop_idle (cH : ℚ) (clock random : Nat → ℚ) (s : Game)
    (ha : s.pauseCountdownActive = false) (hq : s.gameState ≠ STATE_QUIT)
    (hp : s.gameState ≠ STATE_PLAYING) :
    gameLoop cH clock random s = requestAnimationFrame s := by
  unfold gameLoop
  rw [if_neg (by simp [ha]), if_neg hq]
  split_ifs
  · rw [update_not_playing cH random s hp]
  · rfl

/-- The fields of the state the recycle step returns, in terms of the tick's start. -/
theorem recycled_fields {cH : ℚ} {random : Nat → ℚ} {s m : Game}
    (hm : recyclePipe cH random (movePipes (moveBird (applyGravity s))) = .ok m) :
    m.gameState = s.gameState ∧ m.unlockedBirds = s.unlockedBirds ∧
    m.selectedBird = s.selectedBird ∧ m.showShop = s.showShop ∧
    m.pauseCountdown = s.pauseCountdown ∧
    m.pauseCountdownActive = s.pauseCountdownActive ∧ m.spaceHeld = s.spaceHeld ∧
    m.lastCountdownFrame = s.lastCountdownFrame ∧ m.loopPending = s.loopPending := by
  have hf := recyclePipe_frame hm
  simp only [movePipes, moveBird_gameState, applyGravity_gameState, moveBird_unlockedBirds,
    applyGravity_unlockedBirds, moveBird_selectedBird, applyGravity_selectedBird,
    moveBird_showShop, applyGravity_showShop, moveBird_pauseCountdown,
    applyGravity_pauseCountdown, moveBird_pauseCountdownActive,
    applyGravity_pauseCountdownActive, moveBird_spaceHeld, applyGravity_spaceHeld,
    moveBird_lastCountdownFrame, applyGravity_lastCountdownFrame, moveBird_loopPending,
    applyGravity_loopPending] at hf
  exact ⟨hf.1, hf.2.2.2.2.2.1, hf.2.2.2.2.2.2.1, hf.2.2.2.2.2.2.2.1, hf.2.2.2.2.2.2.2.2.1,
    hf.2.2.2.2.2.2.2.2.2.1, hf.2.2.2.2.2.2.2.2.2.2.1, hf.2.2.2.2.2.2.2.2.2.2.2.2.1,
    hf.2.2.2.2.2.2.2.2.2.2.2.2.2⟩

theorem reachable_run {cH : ℚ} {ls : Storage} (es : List Event) :
    ∀ {s : Game}, Reachable cH ls s → Reachable cH ls (run cH es s) := by
  induction es with
  | nil => intro s h; exact h
  | cons e es ih => intro s h; exact ih (Reachable.step e h)

/-- The collision test either declares GameOver or leaves `gameState` alone. -/
theorem detectCollision_gameState (cH : ℚ) (s : Game) :
    (detectCollision cH s).gameState = STATE_GAMEOVER ∨
      (detectCollision cH s).gameState = s.gameState := by
  unfold detectCollision
  split_ifs
  · exact Or.inl rfl
  · exact Or.inr rfl

/-- What the countdown branch leaves alone. -/
theorem countdownFrame_frame (clock : Nat → ℚ) (s : Game) :
    (countdownFrame clock s).birdY = s.birdY ∧
    (countdownFrame clock s).birdVelocity = s.birdVelocity ∧
    (countdownFrame clock s).pipes = s.pipes ∧
    (countdownFrame clock s).score = s.score ∧
    (countdownFrame clock s).highScore = s.highScore ∧
    (countdownFrame clock s).showShop = s.showShop ∧
    (countdownFrame clock s).spaceHeld = s.spaceHeld ∧
    (countdownFrame clock s).autoFlapTick = s.autoFlapTick ∧
    (countdownFrame clock s).unlockedBirds = s.unlockedBirds ∧
    (countdownFrame clock s).selectedBird = s.selectedBird ∧
    (countdownFrame clock s).loopPending = s.loopPending := by
  unfold countdownFrame
  split_ifs
  · split
    · simp
    · split_ifs <;> simp
  · simp

/-- The countdown branch either keeps counting, leaving `gameState` and the flag alone,
or, on a counter of 0, clears the flag and enters Playing. -/
theorem countdownFrame_cases (clock : Nat → ℚ) (s : Game) :
    (0 < s.pauseCountdown ∧ (countdownFrame clock s).gameState = s.gameState ∧
      (countdownFrame clock s).pauseCountdownActive = s.pauseCountdownActive) ∨
    (s.pauseCountdown = 0 ∧ (countdownFrame clock s).gameState = STATE_PLAYING ∧
      (countdownFrame clock s).pauseCountdownActive = false ∧
      (countdownFrame clock s).pauseCountdown = 0) := by
  unfold countdownFrame
  by_cases h : s.pauseCountdown > 0
  · left
    rw [if_pos h]
    refine ⟨h, ?_⟩
    split
    · exact ⟨rfl, rfl⟩
    · split_ifs <;> exact ⟨rfl, rfl⟩
  · right
    rw [if_neg h]
    have h0 : s.pauseCountdown = 0 := by omega
    exact ⟨h0, rfl, rfl, h0⟩

/-! ## The shop is only open in Menu, where the score is 0 -/

theorem menuOk_clickHandler (cH mx my : ℚ) (random : Nat → ℚ) {s : Game} (h : MenuOk s) :
    MenuOk (clickHandler cH mx my random s) := by
  obtain ⟨h1, h2⟩ := h
  unfold clickHandler
  split_ifs with c1 c2 c3 c4 c5 c6
  · exact ⟨fun hs => absurd (c1.2.symm.trans hs) (by simp), fun hm => (by cases hm)⟩
  · exact ⟨fun _ => c1.1, h2⟩
  · exact ⟨fun hs => absurd (c1.2.symm.trans hs) (by simp), fun hm => (by cases hm)⟩
  · exact ⟨h1, h2⟩
  · exact ⟨fun hs => (by cases hs), h2⟩
  · obtain ⟨hg, -, -, hsc, -, hsh, -⟩ := selectBird_frame mx my birdSkins.enum s
    exact ⟨by rw [hsh, hg]; exact h1, by rw [hg, hsc]; exact h2⟩
  · exact ⟨h1, h2⟩

theorem menuOk_keydownHandler (cH : ℚ) (code : Key) (random : Nat → ℚ) {s : Game}
    (h : MenuOk s) : MenuOk (keydownHandler cH code random s) := by
  obtain ⟨h1, h2⟩ := h
  unfold keydownHandler
  split_ifs with c1
  all_goals first
    | exact ⟨h1, h2⟩
    | (have hs : ¬ s.showShop = true := fun hs => c1 (Or.inl (h1 hs))
       exact ⟨fun hs' => absurd hs' hs, fun hm => by cases hm⟩)

theorem menuOk_keyupHandler (code : Key) {s : Game} (h : MenuOk s) :
    MenuOk (keyupHandler code s) := by
  unfold keyupHandler
  split_ifs
  · exact ⟨h.1, h.2⟩
  · exact h

theorem menuOk_gameLoop (cH : ℚ) (clock random : Nat → ℚ) {s : Game} (hi : Inv s)
    (h : MenuOk s) : MenuOk (gameLoop cH clock random s) := by
  obtain ⟨h1, h2⟩ := h
  by_cases ha : s.pauseCountdownActive = true
  · rw [gameLoop_countdown cH clock random s ha]
    have hp := hi.countdown ha
    have hs : ¬ s.showShop = true := fun hs => by rw [h1 hs] at hp; cases hp
    have hf := countdownFrame_frame clock s
    unfold MenuOk requestAnimationFrame
    simp only
    rw [hf.2.2.2.2.2.1]
    refine ⟨fun hs' => absurd hs' hs, fun hm => ?_⟩
    rcases countdownFrame_cases clock s with ⟨-, hg, -⟩ | ⟨-, hg, -, -⟩
    · rw [hg, hp] at hm; cases hm
    · rw [hg] at hm; cases hm
  · have ha' : s.pauseCountdownActive = false := by simpa using ha
    by_cases hq : s.gameState = STATE_QUIT
    · rw [gameLoop_quit cH clock random s ha' hq]
      exact ⟨fun _ => rfl, fun _ => rfl⟩
    · by_cases hp : s.gameState = STATE_PLAYING
      · obtain ⟨m, hm, -, hg⟩ := gameLoop_playing cH clock random s ha' hp
          (hi.live (by simp [hp]) (by simp [hp]))
        have hf := recycled_fields hm
        have hs : ¬ s.showShop = true := fun hs => by rw [h1 hs] at hp; cases hp
        rw [hg]
        unfold MenuOk requestAnimationFrame
        simp only [detectCollision_showShop]
        rw [hf.2.2.2.1]
        refine ⟨fun hs' => absurd hs' hs, fun hmenu => ?_⟩
        rcases detectCollision_gameState cH m with hg' | hg'
        · rw [hg'] at hmenu; cases hmenu
        · rw [hg', hf.1, hp] at hmenu; cases hmenu
      · rw [gameLoop_idle cH clock random s ha' hq hp]
        exact ⟨h1, h2⟩

theorem menuOk_step (cH : ℚ) (e : Event) {s : Game} (hi : Inv s) (h : MenuOk s) :
    MenuOk (step cH s e) := by
  cases e with
  | click mx my random => exact menuOk_clickHandler cH mx my random h
  | keydown code random => exact menuOk_keydownHandler cH code random h
  | keyup code => exact menuOk_keyupHandler code h
  | frame clock random =>
    simp only [step]
    split_ifs
    · exact menuOk_gameLoop cH clock random ⟨hi.spaced, hi.live, hi.countdown⟩ ⟨h.1, h.2⟩
    · exact h

theorem reachable_menuOk {cH : ℚ} {ls : Storage} {s : Game} (h : Reachable cH ls s) :
    MenuOk s := by
  induction h with
  | boot clock random =>
    exact menuOk_gameLoop cH clock random (inv_load cH ls)
      ⟨fun hs => by simp [load] at hs, fun _ => rfl⟩
  | step e hprev ih => exact menuOk_step cH e hprev.inv ih

/-! ## C11 -/

theorem step_frame_pending (cH : ℚ) (clock random : Nat → ℚ) (s : Game)
    (hl : s.loopPending = true) :
    step cH s (.frame clock random) = gameLoop cH clock random { s with loopPending := false } := by
  simp only [step]
  rw [if_pos hl]

theorem step_frame_dropped (cH : ℚ) (clock random : Nat → ℚ) (s : Game)
    (hl : s.loopPending = false) : step cH s (.frame clock random) = s := by
  simp [step, hl]

/-- The frame that handles Quit schedules no further frame. -/
theorem quit_frame_drops_loop (cH : ℚ) (clock random : Nat → ℚ) (s : Game)
    (ha : s.pauseCountdownActive = false) (hq : s.gameState = STATE_QUIT) :
    (step cH s (.frame clock random)).loopPending = false ∧
      (step cH s (.frame clock random)).gameState =
        (if s.loopPending then STATE_MENU else STATE_QUIT) := by
  by_cases hl : s.loopPending = true
  · rw [step_frame_pending cH clock random s hl, if_pos hl,
      gameLoop_quit cH clock random { s with loopPending := false } ha hq]
    exact ⟨rfl, rfl⟩
  · have hl' : s.loopPending = false := by simpa using hl
    rw [step_frame_dropped cH clock random s hl', if_neg hl]
    exact ⟨hl', hq⟩

/-- Once no frame is pending, no event schedules one, and a frame event changes
nothing. -/
theorem loop_stays_dropped (cH : ℚ) (e : Event) (s : Game) (hl : s.loopPending = false) :
    (step cH s e).loopPending = false ∧
      ∀ clock random, step cH s (.frame clock random) = s := by
  refine ⟨?_, fun clock random => by simp [step, hl]⟩
  cases e with
  | click mx my random =>
    simp only [step]
    unfold clickHandler
    split_ifs
    · exact hl
    · exact hl
    · exact hl
    · exact hl
    · exact hl
    · rw [(selectBird_frame mx my birdSkins.enum s).2.2.2.2.2.2]; exact hl
    · exact hl
  | keydown code random =>
    simp only [step]
    unfold keydownHandler
    split_ifs <;> exact hl
  | keyup code =>
    simp only [step]
    unfold keyupHandler
    split_ifs <;> exact hl
  | frame clock random => simp [step, hl]

/-- C11, evaluated: the Quit button clicked in Menu and the frame that handles it lead
back to Menu with no `gameLoop` callback pending; a click on Play then sets Playing, but
no callback is pending, and three further frame events leave the bird and the pipes where
`resetGame` put them. -/
theorem loop_dead_after_quit :
    Reachable 600 emptyStorage afterQuitThenPlay ∧
    (afterQuit.gameState, afterQuit.loopPending) = (STATE_MENU, false) ∧
    (afterQuitThenPlay.gameState, afterQuitThenPlay.loopPending) = (STATE_PLAYING, false) ∧
    ((run 600 [.frame (always 32) (always (1 / 2)), .frame (always 48) (always (1 / 2)),
        .frame (always 64) (always (1 / 2))] afterQuitThenPlay).birdY,
      (run 600 [.frame (always 32) (always (1 / 2)), .frame (always 48) (always (1 / 2)),
        .frame (always 64) (always (1 / 2))] afterQuitThenPlay).birdVelocity,
      (run 600 [.frame (always 32) (always (1 / 2)), .frame (always 48) (always (1 / 2)),
        .frame (always 64) (always (1 / 2))] afterQuitThenPlay).pipes.map (fun p => p.x)) =
      (300, 0, [400, 600, 800]) ∧
    ((step 600 afterPlayClick (.frame (always 16) (always (1 / 2)))).birdY,
      (step 600 afterPlayClick (.frame (always 16) (always (1 / 2)))).pipes.map
        (fun p => p.x)) = (300 + 8 / 100, [400 - 12 / 10, 600 - 12 / 10, 800 - 12 / 10]) :=
  ⟨Reachable.step _ (reachable_run _ (Reachable.boot _ _)), by decide!⟩

/-! ## C14 -/

/-- C14: a Space keydown in Playing with no pause countdown running sets `birdVelocity`
to `FLAP = -5` whatever it was, zeroes `autoFlapTick`, sets `spaceHeld`, with the grace
window active or not, and leaves `birdY`, the pipes, the score, `gameState` and the grace
window alone; a Space keydown in Menu, Quit, Paused or during the pause countdown leaves
`birdVelocity` (indeed the whole state) unchanged. -/
theorem manual_flap (cH : ℚ) (random : Nat → ℚ) (s : Game) :
    (s.gameState = STATE_PLAYING → s.pauseCountdownActive = false →
      (keydownHandler cH Key.Space random s).birdVelocity = FLAP ∧ FLAP = -5 ∧
      (keydownHandler cH Key.Space random s).autoFlapTick = 0 ∧
      (keydownHandler cH Key.Space random s).spaceHeld = true ∧
      (keydownHandler cH Key.Space random s).birdY = s.birdY ∧
      (keydownHandler cH Key.Space random s).pipes = s.pipes ∧
      (keydownHandler cH Key.Space random s).score = s.score ∧
      (keydownHandler cH Key.Space random s).gameState = s.gameState ∧
      (keydownHandler cH Key.Space random s).initialGravity = s.initialGravity ∧
      (keydownHandler cH Key.Space random s).initialGravityTimer = s.initialGravityTimer) ∧
    (s.gameState = STATE_MENU ∨ s.gameState = STATE_QUIT ∨ s.gameState = STATE_PAUSED ∨
        s.pauseCountdownActive = true →
      keydownHandler cH Key.Space random s = s ∧
      (keydownHandler cH Key.Space random s).birdVelocity = s.birdVelocity) := by
  constructor
  · intro hp ha
    have h : keydownHandler cH Key.Space random s =
        { s with birdVelocity := FLAP, spaceHeld := true, autoFlapTick := 0 } := by
      unfold keydownHandler
      rw [if_neg (by simp [hp]), if_neg (by simp [ha]), if_neg (by simp [hp]), if_pos rfl,
        if_neg (by simp [hp]), if_pos hp]
    rw [h]
    exact ⟨rfl, rfl, rfl, rfl, rfl, rfl, rfl, rfl, rfl, rfl⟩
  · intro h
    have hs : keydownHandler cH Key.Space random s = s := by
      unfold keydownHandler
      by_cases hmq : s.gameState = STATE_MENU ∨ s.gameState = STATE_QUIT
      · rw [if_pos hmq]
      · rw [if_neg hmq]
        by_cases ha : s.pauseCountdownActive = true
        · rw [if_pos ha, if_neg (by decide), if_neg (by decide)]
        · rw [if_neg ha]
          have hp : s.gameState = STATE_PAUSED := by
            rcases h with h | h | h | h
            · exact absurd (Or.inl h) hmq
            · exact absurd (Or.inr h) hmq
            · exact h
            · exact absurd h ha
          rw [if_pos hp, if_neg (by decide), if_neg (by decide)]
    exact ⟨hs, by rw [hs]⟩

theorem manual_flap_witness :
    (keydownHandler 600 Key.Space (always 0) afterPlayClick).birdVelocity = FLAP ∧
    FLAP = -5 ∧
    (keydownHandler 600 Key.Space (always 0) afterPlayClick).autoFlapTick = 0 ∧
    (keydownHandler 600 Key.Space (always 0) afterPlayClick).spaceHeld = true ∧
    (keydownHandler 600 Key.Space (always 0) afterPlayClick).birdY = afterPlayClick.birdY ∧
    (keydownHandler 600 Key.Space (always 0) afterPlayClick).pipes = afterPlayClick.pipes ∧
    (keydownHandler 600 Key.Space (always 0) afterPlayClick).score = afterPlayClick.score ∧
    (keydownHandler 600 Key.Space (always 0) afterPlayClick).gameState =
      afterPlayClick.gameState ∧
    (keydownHandler 600 Key.Space (always 0) afterPlayClick).initialGravity =
      afterPlayClick.initialGravity ∧
    (keydownHandler 600 Key.Space (always 0) afterPlayClick).initialGravityTimer =
      afterPlayClick.initialGravityTimer :=
  (manual_flap 600 (always 0) afterPlayClick).1 afterPlayClick_playing (by decide!)

/-! ## C16 -/

/-- In a spaced window at most one position holds a pipe that overlaps the bird's
column. -/
theorem spaced_overlap_index {l : List Pipe} (h : Spaced l) :
    ∀ (i j : Nat) (hi : i < l.length) (hj : j < l.length),
      (80 + BIRD_SIZE / 2 > (l.get ⟨i, hi⟩).x ∧
        80 - BIRD_SIZE / 2 < (l.get ⟨i, hi⟩).x + PIPE_WIDTH) →
      (80 + BIRD_SIZE / 2 > (l.get ⟨j, hj⟩).x ∧
        80 - BIRD_SIZE / 2 < (l.get ⟨j, hj⟩).x + PIPE_WIDTH) →
      i = j := by
  obtain ⟨a, b, c, rfl, hab, hbc⟩ := h
  intro i j hi hj
  have hi3 : i < 3 := hi
  have hj3 : j < 3 := hj
  simp only [BIRD_SIZE, PIPE_WIDTH]
  rintro ⟨h1, h2⟩ ⟨h3, h4⟩
  interval_cases i <;> interval_cases j <;> first
    | rfl
    | (exfalso
       simp only [List.get_eq_getElem, List.getElem_cons_zero, List.getElem_cons_succ]
         at h1 h2 h3 h4
       linarith)

/-- C16: in every reachable state with a non-empty pipe list the pipes are strictly
ascending in `x`, each exactly 200 to the right of the one before, and so at most one
position of the list holds a pipe that passes the horizontal-overlap test against the
bird's column. -/
theorem pipes_sorted_one_overlap (cH : ℚ) (ls : Storage) (s : Game)
    (hr : Reachable cH ls s) (hne : s.pipes ≠ []) :
    s.pipes.Pairwise (fun a b => a.x < b.x) ∧
    s.pipes.Chain' (fun a b => b.x = a.x + 200) ∧
    ∀ (i j : Nat) (hi : i < s.pipes.length) (hj : j < s.pipes.length),
      (80 + BIRD_SIZE / 2 > (s.pipes.get ⟨i, hi⟩).x ∧
        80 - BIRD_SIZE / 2 < (s.pipes.get ⟨i, hi⟩).x + PIPE_WIDTH) →
      (80 + BIRD_SIZE / 2 > (s.pipes.get ⟨j, hj⟩).x ∧
        80 - BIRD_SIZE / 2 < (s.pipes.get ⟨j, hj⟩).x + PIPE_WIDTH) →
      i = j := by
  have hsp : Spaced s.pipes := by
    rcases hr.inv.spaced with h | h
    · exact absurd h hne
    · exact h
  obtain ⟨a, b, c, hps, hab, hbc⟩ := hsp
  refine ⟨?_, ?_, ?_⟩
  · rw [hps]
    simp only [List.pairwise_cons, List.mem_cons, List.mem_singleton, List.not_mem_nil,
      forall_eq_or_imp, forall_eq, false_imp_iff, implies_true, List.Pairwise.nil,
      and_true]
    refine ⟨⟨by linarith, by linarith⟩, by linarith⟩
  · rw [hps]
    simp only [List.chain'_cons, List.chain'_singleton, and_true]
    exact ⟨hab, hbc⟩
  · exact spaced_overlap_index ⟨a, b, c, hps, hab, hbc⟩

theorem pipes_sorted_one_overlap_witness :
    afterPlayClick.pipes.Pairwise (fun a b => a.x < b.x) ∧
    afterPlayClick.pipes.Chain' (fun a b => b.x = a.x + 200) ∧
    ∀ (i j : Nat) (hi : i < afterPlayClick.pipes.length)
      (hj : j < afterPlayClick.pipes.length),
      (80 + BIRD_SIZE / 2 > (afterPlayClick.pipes.get ⟨i, hi⟩).x ∧
        80 - BIRD_SIZE / 2 < (afterPlayClick.pipes.get ⟨i, hi⟩).x + PIPE_WIDTH) →
      (80 + BIRD_SIZE / 2 > (afterPlayClick.pipes.get ⟨j, hj⟩).x ∧
        80 - BIRD_SIZE / 2 < (afterPlayClick.pipes.get ⟨j, hj⟩).x + PIPE_WIDTH) →
      i = j :=
  pipes_sorted_one_overlap 600 emptyStorage afterPlayClick afterPlayClick_reachable
    (by decide!)

/-! ## C17 -/

/-- A frame from a reachable Playing state is `update` followed by the request for the
next frame. -/
theorem gameLoop_playing_update (cH : ℚ) (clock random : Nat → ℚ) (s : Game)
    (ha : s.pauseCountdownActive = false) (hp : s.gameState = STATE_PLAYING)
    (hs : Spaced s.pipes) :
    ∃ s', update cH random s = .ok s' ∧
      gameLoop cH clock random s = requestAnimationFrame s' := by
  obtain ⟨m, hm, hu, -⟩ := update_spaced cH random s hp hs
  obtain ⟨m', hm', -, hg⟩ := gameLoop_playing cH clock random s ha hp hs
  rw [hm] at hm'
  cases hm'
  exact ⟨_, hu, hg⟩

/-- What one run of `gameLoop` does to the score and the high score. -/
theorem gameLoop_scores (cH : ℚ) (clock random : Nat → ℚ) {s : Game} (hi : Inv s) :
    s.highScore ≤ (gameLoop cH clock random s).highScore ∧
      (ScoreOk s → ScoreOk (gameLoop cH clock random s)) := by
  by_cases ha : s.pauseCountdownActive = true
  · rw [gameLoop_countdown cH clock random s ha]
    have hf := countdownFrame_frame clock s
    unfold ScoreOk requestAnimationFrame
    simp only
    rw [hf.2.2.2.1, hf.2.2.2.2.1]
    exact ⟨le_refl _, id⟩
  · have ha' : s.pauseCountdownActive = false := by simpa using ha
    by_cases hq : s.gameState = STATE_QUIT
    · rw [gameLoop_quit cH clock random s ha' hq]
      exact ⟨le_refl _, fun h => ⟨h.1, h.1⟩⟩
    · by_cases hp : s.gameState = STATE_PLAYING
      · have hsp := hi.live (by simp [hp]) (by simp [hp])
        obtain ⟨s', hu, hg⟩ := gameLoop_playing_update cH clock random s ha' hp hsp
        obtain ⟨s1, hu1, -, hyes, hno⟩ :=
          update_score cH random s hp (by rw [hsp.length]; decide)
        rw [hu] at hu1
        cases hu1
        rw [hg]
        unfold ScoreOk requestAnimationFrame
        simp only
        cases hd : recycleDue s with
        | true =>
          obtain ⟨h1, h2⟩ := hyes hd
          rw [h1, h2]
          exact ⟨le_max_left _ _, fun h => ⟨le_trans h.1 (le_max_left _ _), le_max_right _ _⟩⟩
        | false =>
          obtain ⟨h1, h2⟩ := hno hd
          rw [h1, h2]
          exact ⟨le_refl _, id⟩
      · rw [gameLoop_idle cH clock random s ha' hq hp]
        exact ⟨le_refl _, id⟩

/-- What one event does to the score and the high score. -/
theorem step_scores (cH : ℚ) (e : Event) {s : Game} (hi : Inv s) :
    s.highScore ≤ (step cH s e).highScore ∧ (ScoreOk s → ScoreOk (step cH s e)) := by
  cases e with
  | click mx my random =>
    simp only [step]
    unfold clickHandler
    split_ifs
    · exact ⟨le_refl _, fun h => ⟨h.1, h.1⟩⟩
    · exact ⟨le_refl _, id⟩
    · exact ⟨le_refl _, id⟩
    · exact ⟨le_refl _, id⟩
    · exact ⟨le_refl _, id⟩
    · obtain ⟨-, -, -, hsc, hhs, -, -⟩ := selectBird_frame mx my birdSkins.enum s
      unfold ScoreOk
      rw [hsc, hhs]
      exact ⟨le_refl _, id⟩
    · exact ⟨le_refl _, id⟩
  | keydown code random =>
    simp only [step]
    unfold keydownHandler
    split_ifs
    all_goals first
      | exact ⟨le_refl _, id⟩
      | exact ⟨le_refl _, fun h => ⟨h.1, h.1⟩⟩
  | keyup code =>
    simp only [step]
    unfold keyupHandler
    split_ifs <;> exact ⟨le_refl _, id⟩
  | frame clock random =>
    simp only [step]
    split_ifs
    · exact gameLoop_scores cH clock random ⟨hi.spaced, hi.live, hi.countdown⟩
    · exact ⟨le_refl _, id⟩

/-- C17: in every reachable state no click, key event or frame decreases `highScore`
(`resetGame` on restart and on quit included), and if the stored high score the page
starts from is non-negative, `score ≤ highScore` in every reachable state. -/
theorem highScore_monotone (cH : ℚ) (ls : Storage) (s : Game) (hr : Reachable cH ls s) :
    (∀ e : Event, s.highScore ≤ (step cH s e).highScore) ∧
    (∀ random, s.highScore ≤ (resetGame cH random s).highScore) ∧
    (0 ≤ (load cH ls).highScore → s.score ≤ s.highScore) := by
  refine ⟨fun e => (step_scores cH e hr.inv).1, fun _ => le_refl _, fun h0 => ?_⟩
  have hok : ScoreOk s := by
    induction hr with
    | boot clock random =>
      exact (gameLoop_scores cH clock random (inv_load cH ls)).2 ⟨h0, h0⟩
    | step e hprev ih => exact (step_scores cH e hprev.inv).2 ih
  exact hok.2

theorem highScore_monotone_witness :
    (∀ e : Event, afterPlayClick.highScore ≤ (step 600 afterPlayClick e).highScore) ∧
    (∀ random, afterPlayClick.highScore ≤ (resetGame 600 random afterPlayClick).highScore) ∧
    (0 ≤ (load 600 emptyStorage).highScore → afterPlayClick.score ≤ afterPlayClick.highScore) :=
  highScore_monotone 600 emptyStorage afterPlayClick afterPlayClick_reachable

/-! ## C19 -/

/-- With the default preferences and a score of 0, choosing skin 0 or a skin with a
positive cost changes neither the unlocked list nor the selection. -/
theorem defaultPrefs_chooseBird (i : Nat) (skin : BirdSkin) {s : Game}
    (h : DefaultPrefs s) (h0 : s.score = 0) (hi : i = 0 ∨ 0 < skin.cost) :
    DefaultPrefs (chooseBird i skin s) := by
  obtain ⟨hu, hsel⟩ := h
  unfold chooseBird
  by_cases hmem : i ∈ s.unlockedBirds
  · have hc : ¬ ¬ s.unlockedBirds.contains i = true := by simpa using hmem
    rw [if_neg hc]
    have hi0 : i = 0 := by simpa [hu] using hmem
    exact ⟨hu, hi0⟩
  · have hc : ¬ s.unlockedBirds.contains i = true := by simpa using hmem
    rw [if_pos hc]
    have hcost : ¬ s.score ≥ skin.cost := by
      rcases hi with hi | hi
      · exact absurd (by simp [hu, hi]) hmem
      · rw [h0]; omega
    rw [if_neg hcost]
    exact ⟨hu, hsel⟩

theorem defaultPrefs_selectBird (mx my : ℚ) (l : List (Nat × BirdSkin)) {s : Game}
    (h : DefaultPrefs s) (h0 : s.score = 0)
    (hl : ∀ p ∈ l, p.1 = 0 ∨ 0 < p.2.cost) :
    DefaultPrefs (selectBird mx my l s) := by
  induction l with
  | nil => exact h
  | cons p more ih =>
    obtain ⟨i, skin⟩ := p
    simp only [selectBird]
    split_ifs
    · exact defaultPrefs_chooseBird i skin h h0 (hl (i, skin) (List.mem_cons_self _ _))
    · exact ih (fun q hq => hl q (List.mem_cons_of_mem _ hq))

/-- Every skin of the catalogue other than skin 0 has a positive cost. -/
theorem birdSkins_costs : ∀ p ∈ birdSkins.enum, p.1 = 0 ∨ 0 < p.2.cost := by
  intro p hp
  simp only [birdSkins, List.enum, List.enumFrom, List.mem_cons, List.mem_singleton,
    List.not_mem_nil, or_false] at hp
  rcases hp with rfl | rfl | rfl
  · exact Or.inl rfl
  · exact Or.inr (by decide)
  · exact Or.inr (by decide)

theorem defaultPrefs_gameLoop (cH : ℚ) (clock random : Nat → ℚ) {s : Game} (hi : Inv s)
    (h : DefaultPrefs s) : DefaultPrefs (gameLoop cH clock random s) := by
  by_cases ha : s.pauseCountdownActive = true
  · rw [gameLoop_countdown cH clock random s ha]
    have hf := countdownFrame_prefs clock s
    unfold DefaultPrefs requestAnimationFrame
    simp only
    rw [hf.1, hf.2]
    exact h
  · have ha' : s.pauseCountdownActive = false := by simpa using ha
    by_cases hq : s.gameState = STATE_QUIT
    · rw [gameLoop_quit cH clock random s ha' hq]
      exact h
    · by_cases hpl : s.gameState = STATE_PLAYING
      · obtain ⟨m, hm', -, hg⟩ := gameLoop_playing cH clock random s ha' hpl
          (hi.live (by simp [hpl]) (by simp [hpl]))
        have hf := recycled_fields hm'
        rw [hg]
        unfold DefaultPrefs requestAnimationFrame
        simp only [detectCollision_unlockedBirds, detectCollision_selectedBird]
        rw [hf.2.1, hf.2.2.1]
        exact h
      · rw [gameLoop_idle cH clock random s ha' hq hpl]
        exact h

theorem defaultPrefs_step (cH : ℚ) (e : Event) {s : Game} (hi : Inv s) (hm : MenuOk s)
    (h : DefaultPrefs s) : DefaultPrefs (step cH s e) := by
  cases e with
  | click mx my random =>
    simp only [step]
    unfold clickHandler
    split_ifs with c1 c2 c3 c4 c5 c6
    · exact h
    · exact h
    · exact h
    · exact h
    · exact h
    · exact defaultPrefs_selectBird mx my _ h (hm.2 (hm.1 c5)) birdSkins_costs
    · exact h
  | keydown code random =>
    simp only [step]
    unfold keydownHandler
    split_ifs <;> exact h
  | keyup code =>
    simp only [step]
    unfold keyupHandler
    split_ifs <;> exact h
  | frame clock random =>
    simp only [step]
    split_ifs
    · exact defaultPrefs_gameLoop cH clock random ⟨hi.spaced, hi.live, hi.countdown⟩
        ⟨h.1, h.2⟩
    · exact h

/-- C19: in every reachable state with the shop open, `gameState` is Menu and the score
is 0; so, when the page starts from the default preferences, in every reachable state
`unlockedBirds = [0]` and `selectedBird = 0`, and no shop click unlocks a skin. -/
theorem shop_never_sells (cH : ℚ) (ls : Storage) (s : Game) (hr : Reachable cH ls s) :
    (s.showShop = true → s.gameState = STATE_MENU ∧ s.score = 0) ∧
    ((load cH ls).unlockedBirds = [0] → (load cH ls).selectedBird = 0 →
      s.unlockedBirds = [0] ∧ s.selectedBird = 0 ∧
      ∀ mx my random, (clickHandler cH mx my random s).unlockedBirds = [0]) := by
  have hm := reachable_menuOk hr
  refine ⟨fun hs => ⟨hm.1 hs, hm.2 (hm.1 hs)⟩, fun hu hsel => ?_⟩
  have hd : DefaultPrefs s := by
    clear hm
    induction hr with
    | boot clock random =>
      have hb : DefaultPrefs (load cH ls) := ⟨hu, hsel⟩
      unfold boot
      rw [gameLoop_idle cH clock random (load cH ls) rfl (by simp [load]) (by simp [load])]
      exact hb
    | step e hprev ih => exact defaultPrefs_step cH e hprev.inv (reachable_menuOk hprev) ih
  refine ⟨hd.1, hd.2, fun mx my random => ?_⟩
  exact (defaultPrefs_step cH (.click mx my random) hr.inv hm hd).1

theorem shop_never_sells_witness :
    (afterPlayClick.showShop = true →
      afterPlayClick.gameState = STATE_MENU ∧ afterPlayClick.score = 0) ∧
    ((load 600 emptyStorage).unlockedBirds = [0] → (load 600 emptyStorage).selectedBird = 0 →
      afterPlayClick.unlockedBirds = [0] ∧ afterPlayClick.selectedBird = 0 ∧
      ∀ mx my random, (clickHandler 600 mx my random afterPlayClick).unlockedBirds = [0]) :=
  shop_never_sells 600 emptyStorage afterPlayClick afterPlayClick_reachable

/-! ## C15 -/

theorem applyGravity_fire (s : Game) (hs : s.spaceHeld = true) (hg : s.initialGravity = false)
    (ht : s.autoFlapTick + 1 ≥ AUTO_FLAP_INTERVAL) :
    (applyGravity s).birdVelocity = FLAP * (7 / 10) ∧ (applyGravity s).autoFlapTick = 0 := by
  simp [applyGravity, hs, hg, ht]

theorem applyGravity_count (s : Game) (hs : s.spaceHeld = true) (hg : s.initialGravity = false)
    (ht : s.autoFlapTick + 1 < AUTO_FLAP_INTERVAL) :
    (applyGravity s).birdVelocity = s.birdVelocity + GRAVITY ∧
      (applyGravity s).autoFlapTick = s.autoFlapTick + 1 := by
  have ht' : ¬ AUTO_FLAP_INTERVAL ≤ s.autoFlapTick + 1 := by omega
  simp [applyGravity, hs, hg, ht']

theorem applyGravity_off (s : Game) (h : s.spaceHeld = false ∨ s.initialGravity = true) :
    (applyGravity s).autoFlapTick = s.autoFlapTick := by
  rcases h with h | h <;> simp [applyGravity, h]

/-- One tick from Playing, in terms of its gravity stage. -/
theorem update_physics (cH : ℚ) (random : Nat → ℚ) (s : Game)
    (hp : s.gameState = STATE_PLAYING) (hl : 2 ≤ s.pipes.length) :
    ∃ s', update cH random s = .ok s' ∧ s'.pipes.length = s.pipes.length ∧
      s'.spaceHeld = s.spaceHeld ∧
      s'.autoFlapTick = (applyGravity s).autoFlapTick ∧
      s'.birdVelocity = (applyGravity s).birdVelocity ∧
      s'.birdY = s.birdY + (applyGravity s).birdVelocity := by
  obtain ⟨s1, hu1, hlen, -, -⟩ := update_score cH random s hp hl
  obtain ⟨m, hm, hu⟩ := update_eq_detect cH random s hp hl
  have hf := recyclePipe_frame hm
  rw [hu] at hu1
  cases hu1
  refine ⟨_, hu, hlen, ?_, ?_, ?_, ?_⟩
  · rw [detectCollision_spaceHeld, hf.2.2.2.2.2.2.2.2.2.2.1]
    simp [movePipes]
  · rw [detectCollision_autoFlapTick, hf.2.2.2.2.2.2.2.2.2.2.2.1]
    simp [movePipes]
  · rw [detectCollision_birdVelocity, hf.2.2.1]
    simp [movePipes]
  · rw [detectCollision_birdY, hf.2.1]
    simp [movePipes]

/-- With Space held and the grace window over, a run of ticks that is still in Playing
at its end has advanced the auto-flap counter by its length, modulo the interval. -/
theorem updates_autoFlap (cH : ℚ) (rs : List (Nat → ℚ)) :
    ∀ s : Game, 2 ≤ s.pipes.length → s.spaceHeld = true → s.initialGravity = false →
      s.autoFlapTick < AUTO_FLAP_INTERVAL →
      ∃ sN, updates cH rs s = .ok sN ∧
        (sN.gameState = STATE_PLAYING →
          sN.spaceHeld = true ∧ sN.initialGravity = false ∧
            sN.autoFlapTick = (s.autoFlapTick + rs.length) % AUTO_FLAP_INTERVAL) := by
  induction rs with
  | nil =>
    intro s _ hs hg ht
    exact ⟨s, rfl, fun _ => ⟨hs, hg, by simp [Nat.mod_eq_of_lt ht]⟩⟩
  | cons random more ih =>
    intro s hl hs hg ht
    by_cases hp : s.gameState = STATE_PLAYING
    · obtain ⟨s1, hu, hlen, hsp, htick, -, -⟩ := update_physics cH random s hp hl
      obtain ⟨s1', hu', -, -, hoff⟩ := update_grace cH random s hp hl
      rw [hu] at hu'
      cases hu'
      have hg1 := hoff hg
      by_cases hfire : s.autoFlapTick + 1 ≥ AUTO_FLAP_INTERVAL
      · have ht1 : s1.autoFlapTick = 0 := by
          rw [htick]; exact (applyGravity_fire s hs hg hfire).2
        obtain ⟨sN, hrun, hN⟩ := ih s1 (by rw [hlen]; exact hl) (by rw [hsp]; exact hs) hg1
          (by rw [ht1]; decide)
        refine ⟨sN, by simp [updates, hu, hrun], fun hpN => ?_⟩
        obtain ⟨h1, h2, h3⟩ := hN hpN
        refine ⟨h1, h2, ?_⟩
        rw [h3, ht1, List.length_cons]
        unfold AUTO_FLAP_INTERVAL at hfire ht ⊢
        omega
      · have hlt : s.autoFlapTick + 1 < AUTO_FLAP_INTERVAL := by omega
        have ht1 : s1.autoFlapTick = s.autoFlapTick + 1 := by
          rw [htick]; exact (applyGravity_count s hs hg hlt).2
        obtain ⟨sN, hrun, hN⟩ := ih s1 (by rw [hlen]; exact hl) (by rw [hsp]; exact hs) hg1
          (by rw [ht1]; exact hlt)
        refine ⟨sN, by simp [updates, hu, hrun], fun hpN => ?_⟩
        obtain ⟨h1, h2, h3⟩ := hN hpN
        refine ⟨h1, h2, ?_⟩
        rw [h3, ht1, List.length_cons]
        congr 1
        omega
    · exact ⟨s, updates_not_playing cH _ s hp, fun hpN => absurd hpN hp⟩

/-- C15: a tick from Playing returns. With Space held and the grace window over the
counter is incremented; if it reaches `AUTO_FLAP_INTERVAL = 18` the velocity that moves
the bird in this tick is exactly `0.7 * FLAP` (the gravity increment is dropped) and the
counter is back at 0, otherwise the counter keeps the increment and gravity applies. With
Space not held or the grace window active the counter is unchanged and gravity applies.
Hence, from a counter of 0 with Space held after the grace window, in a run that stays in
Playing the tick number `k` fires an auto-flap exactly when 18 divides `k`. -/
theorem auto_flap_tick (cH : ℚ) (random : Nat → ℚ) (rs : List (Nat → ℚ)) (s : Game)
    (hp : s.gameState = STATE_PLAYING) (hl : 2 ≤ s.pipes.length) :
    (∃ s', update cH random s = .ok s' ∧
      (s.spaceHeld = true → s.initialGravity = false →
        (s.autoFlapTick + 1 ≥ AUTO_FLAP_INTERVAL →
          s'.birdVelocity = 7 / 10 * FLAP ∧ s'.birdY = s.birdY + 7 / 10 * FLAP ∧
            s'.autoFlapTick = 0) ∧
        (s.autoFlapTick + 1 < AUTO_FLAP_INTERVAL →
          s'.autoFlapTick = s.autoFlapTick + 1 ∧
            s'.birdVelocity = s.birdVelocity + GRAVITY ∧
            s'.birdY = s.birdY + (s.birdVelocity + GRAVITY))) ∧
      (s.spaceHeld = false ∨ s.initialGravity = true →
        s'.autoFlapTick = s.autoFlapTick ∧
          s'.birdVelocity =
            s.birdVelocity + (if s.initialGravity then INITIAL_GRAVITY else GRAVITY))) ∧
    (s.spaceHeld = true → s.initialGravity = false → s.autoFlapTick = 0 →
      ∃ sN, updates cH rs s = .ok sN ∧
        (sN.gameState = STATE_PLAYING →
          sN.autoFlapTick = rs.length % AUTO_FLAP_INTERVAL ∧
            (autoFlapFires sN = true ↔ (rs.length + 1) % AUTO_FLAP_INTERVAL = 0))) := by
  constructor
  · obtain ⟨s', hu, -, -, htick, hv, hy⟩ := update_physics cH random s hp hl
    refine ⟨s', hu, fun hs hg => ⟨fun hfire => ?_, fun hlt => ?_⟩, fun hoff => ?_⟩
    · obtain ⟨h1, h2⟩ := applyGravity_fire s hs hg hfire
      rw [hv, hy, htick, h1, h2]
      exact ⟨by ring, by ring, rfl⟩
    · obtain ⟨h1, h2⟩ := applyGravity_count s hs hg hlt
      rw [hv, hy, htick, h1, h2]
      exact ⟨rfl, rfl, rfl⟩
    · rw [htick, hv, applyGravity_off s hoff]
      exact ⟨rfl, applyGravity_birdVelocity s (by
        rcases hoff with h | h
        · exact Or.inl h
        · exact Or.inr (Or.inl h))⟩
  · intro hs hg h0
    obtain ⟨sN, hrun, hN⟩ := updates_autoFlap cH rs s hl hs hg (by rw [h0]; decide)
    refine ⟨sN, hrun, fun hpN => ?_⟩
    obtain ⟨h1, h2, h3⟩ := hN hpN
    rw [h0, zero_add] at h3
    refine ⟨h3, ?_⟩
    simp only [autoFlapFires, h1, h2, h3, Bool.not_false, Bool.and_self, Bool.true_and,
      decide_eq_true_eq]
    unfold AUTO_FLAP_INTERVAL
    omega

theorem auto_flap_tick_witness :
    (∃ s', update 600 (always (1 / 2)) holdingSpace = .ok s' ∧
      (holdingSpace.spaceHeld = true → holdingSpace.initialGravity = false →
        (holdingSpace.autoFlapTick + 1 ≥ AUTO_FLAP_INTERVAL →
          s'.birdVelocity = 7 / 10 * FLAP ∧ s'.birdY = holdingSpace.birdY + 7 / 10 * FLAP ∧
            s'.autoFlapTick = 0) ∧
        (holdingSpace.autoFlapTick + 1 < AUTO_FLAP_INTERVAL →
          s'.autoFlapTick = holdingSpace.autoFlapTick + 1 ∧
            s'.birdVelocity = holdingSpace.birdVelocity + GRAVITY ∧
            s'.birdY = holdingSpace.birdY + (holdingSpace.birdVelocity + GRAVITY))) ∧
      (holdingSpace.spaceHeld = false ∨ holdingSpace.initialGravity = true →
        s'.autoFlapTick = holdingSpace.autoFlapTick ∧
          s'.birdVelocity =
            holdingSpace.birdVelocity +
              (if holdingSpace.initialGravity then INITIAL_GRAVITY else GRAVITY))) ∧
    (holdingSpace.spaceHeld = true → holdingSpace.initialGravity = false →
      holdingSpace.autoFlapTick = 0 →
      ∃ sN, updates 600 (List.replicate 17 (always (1 / 2))) holdingSpace = .ok sN ∧
        (sN.gameState = STATE_PLAYING →
          sN.autoFlapTick = (List.replicate 17 (always (1 / 2))).length % AUTO_FLAP_INTERVAL ∧
            (autoFlapFires sN = true ↔
              ((List.replicate 17 (always (1 / 2))).length + 1) % AUTO_FLAP_INTERVAL = 0))) :=
  auto_flap_tick 600 (always (1 / 2)) (List.replicate 17 (always (1 / 2))) holdingSpace
    (by decide!) (by decide!)

/-- The auto-flap of C15, evaluated: from `holdingSpace` the run is still in Playing
after 17 ticks with the counter at 17 and velocity `17 * GRAVITY`; the 18th tick leaves
velocity `0.7 * FLAP = -3.5` and the counter at 0; the 36th tick does the same, and the
35 ticks between do not fire. -/
theorem auto_flap_examples :
    (updates 600 (List.replicate 17 (always (1 / 2))) holdingSpace).toOption.map
        (fun s => (s.gameState, s.autoFlapTick, s.birdVelocity)) =
      some (STATE_PLAYING, 17, 17 * GRAVITY) ∧
    (updates 600 (List.replicate 18 (always (1 / 2))) holdingSpace).toOption.map
        (fun s => (s.gameState, s.autoFlapTick, s.birdVelocity)) =
      some (STATE_PLAYING, 0, -35 / 10) ∧
    (updates 600 (List.replicate 35 (always (1 / 2))) holdingSpace).toOption.map
        (fun s => (s.gameState, s.autoFlapTick, s.birdVelocity)) =
      some (STATE_PLAYING, 17, -35 / 10 + 17 * GRAVITY) ∧
    (updates 600 (List.replicate 36 (always (1 / 2))) holdingSpace).toOption.map
        (fun s => (s.gameState, s.autoFlapTick, s.birdVelocity)) =
      some (STATE_PLAYING, 0, -35 / 10) := by
  decide!

/-! ## C18 -/

theorem chooseBird_input (i : Nat) (skin : BirdSkin) (s : Game) :
    (chooseBird i skin s).spaceHeld = s.spaceHeld ∧
      (chooseBird i skin s).autoFlapTick = s.autoFlapTick := by
  unfold chooseBird
  split_ifs <;> exact ⟨rfl, rfl⟩

theorem selectBird_input (mx my : ℚ) (l : List (Nat × BirdSkin)) (s : Game) :
    (selectBird mx my l s).spaceHeld = s.spaceHeld ∧
      (selectBird mx my l s).autoFlapTick = s.autoFlapTick := by
  induction l with
  | nil => exact ⟨rfl, rfl⟩
  | cons p more ih =>
    obtain ⟨i, skin⟩ := p
    simp only [selectBird]
    split_ifs
    · exact chooseBird_input i skin s
    · exact ih

/-- C18 as stated fails. With Space pressed in Playing and never released: (1) after the
bird hits the ceiling, the restart keydown runs `resetGame` (score 0, bird re-centred,
Playing) and leaves `spaceHeld = true` and `autoFlapTick = 4`; (2) after pause and quit,
the Quit frame runs `resetGame` (Menu) and leaves `spaceHeld = true`. -/
theorem input_state_survives_reset :
    Reachable 600 emptyStorage restartWhileHeld ∧
    Reachable 600 emptyStorage quitWhileHeld ∧
    heldUntilGameOver.gameState = STATE_GAMEOVER ∧
    (restartWhileHeld.gameState, restartWhileHeld.score, restartWhileHeld.birdY,
      restartWhileHeld.initialGravityTimer) = (STATE_PLAYING, 0, 300, 0) ∧
    ¬ (restartWhileHeld.spaceHeld = false ∧ restartWhileHeld.autoFlapTick = 0) ∧
    (restartWhileHeld.spaceHeld, restartWhileHeld.autoFlapTick) = (true, 4) ∧
    (quitWhileHeld.gameState, quitWhileHeld.score, quitWhileHeld.pipes.length) =
      (STATE_MENU, 0, 3) ∧
    ¬ (quitWhileHeld.spaceHeld = false ∧ quitWhileHeld.autoFlapTick = 0) :=
  ⟨Reachable.step _ (reachable_run _ (Reachable.boot _ _)),
    reachable_run _ (Reachable.boot _ _), by decide!⟩

/-- C18, amended: a session reset leaves the input state as it was. `resetGame` changes
neither `spaceHeld` nor `autoFlapTick`, and so neither does the Play click, the restart
keydown in GameOver, or the frame that handles Quit; right after any of them `spaceHeld`
is false and `autoFlapTick` is 0 if they were so before. What clears them is a Space
keyup. -/
theorem reset_keeps_input_state (cH mx my : ℚ) (clock random : Nat → ℚ) (s : Game) :
    ((resetGame cH random s).spaceHeld = s.spaceHeld ∧
      (resetGame cH random s).autoFlapTick = s.autoFlapTick) ∧
    ((clickHandler cH mx my random s).spaceHeld = s.spaceHeld ∧
      (clickHandler cH mx my random s).autoFlapTick = s.autoFlapTick) ∧
    (s.gameState = STATE_GAMEOVER →
      (keydownHandler cH Key.Space random s).spaceHeld = s.spaceHeld ∧
      (keydownHandler cH Key.Space random s).autoFlapTick = s.autoFlapTick) ∧
    (s.gameState = STATE_QUIT →
      (gameLoop cH clock random s).spaceHeld = s.spaceHeld ∧
      (gameLoop cH clock random s).autoFlapTick = s.autoFlapTick) ∧
    ((keyupHandler Key.Space s).spaceHeld = false ∧
      (keyupHandler Key.Space s).autoFlapTick = 0) := by
  refine ⟨⟨rfl, rfl⟩, ?_, ?_, ?_, ⟨rfl, rfl⟩⟩
  · unfold clickHandler
    split_ifs
    · exact ⟨rfl, rfl⟩
    · exact ⟨rfl, rfl⟩
    · exact ⟨rfl, rfl⟩
    · exact ⟨rfl, rfl⟩
    · exact ⟨rfl, rfl⟩
    · exact selectBird_input mx my birdSkins.enum s
    · exact ⟨rfl, rfl⟩
  · intro hg
    unfold keydownHandler
    rw [if_neg (by simp [hg])]
    split_ifs <;> exact ⟨rfl, rfl⟩
  · intro hq
    unfold gameLoop
    by_cases ha : s.pauseCountdownActive = true
    · rw [if_pos ha]
      have hf := countdownFrame_frame clock s
      exact ⟨hf.2.2.2.2.2.2.1, hf.2.2.2.2.2.2.2.1⟩
    · rw [if_neg ha, if_pos hq]
      exact ⟨rfl, rfl⟩

theorem reset_keeps_input_state_witness :
    (keydownHandler 600 Key.Space (always (1 / 2)) heldUntilGameOver).spaceHeld =
      heldUntilGameOver.spaceHeld ∧
    (keydownHandler 600 Key.Space (always (1 / 2)) heldUntilGameOver).autoFlapTick =
      heldUntilGameOver.autoFlapTick :=
  (reset_keeps_input_state 600 0 0 (always 0) (always (1 / 2)) heldUntilGameOver).2.2.1
    (by decide!)

/-! ## C13 -/

/-- What the 1000 ms test does guarantee: a frame of the countdown changes the counter
only by decrementing it, and only when no decrement time is on record or the frame's
first clock reading is at least 1000 ms after the recorded one. -/
theorem countdown_decrement_spacing (clock : Nat → ℚ) (s : Game)
    (hd : (countdownFrame clock s).pauseCountdown ≠ s.pauseCountdown) :
    (countdownFrame clock s).pauseCountdown = s.pauseCountdown - 1 ∧
      (s.lastCountdownFrame = none ∨
        ∃ last, s.lastCountdownFrame = some last ∧ clock 0 - last ≥ 1000) := by
  unfold countdownFrame at hd ⊢
  by_cases h0 : s.pauseCountdown > 0
  · rw [if_pos h0] at hd ⊢
    cases hl : s.lastCountdownFrame with
    | none => exact ⟨rfl, Or.inl rfl⟩
    | some last =>
      rw [hl] at hd
      simp only at hd ⊢
      by_cases ht : clock 0 - last ≥ 1000
      · rw [if_pos ht]
        exact ⟨rfl, Or.inr ⟨last, rfl, ht⟩⟩
      · rw [if_neg ht] at hd
        exact absurd rfl hd
  · rw [if_neg h0] at hd
    exact absurd rfl hd

/-- With no decrement time on record, the first frame of a countdown decrements at once,
whatever the clock reads. -/
theorem first_decrement_immediate (clock : Nat → ℚ) (s : Game)
    (hc : 0 < s.pauseCountdown) (hl : s.lastCountdownFrame = none) :
    (countdownFrame clock s).pauseCountdown = s.pauseCountdown - 1 := by
  unfold countdownFrame
  rw [if_pos hc, hl]

/-- C13, evaluated. First pause of a page session: the resume key arrives after the
frame at 32 ms; the frame at 48 ms already decrements 3 to 2 (no decrement time is on
record), the later decrements come at 1048 and 2048 ms, and the frame at 2064 ms enters
Playing: at most 2032 ms after the resume key. Second pause: the resume key arrives after
the frame at 5000 ms, and the frame at 5016 ms decrements at once, because the recorded
time, 2048 ms, is that of the previous countdown. -/
theorem countdown_shorter_than_3000 :
    Reachable 600 emptyStorage secondResume ∧
    (firstResume.gameState, firstResume.pauseCountdownActive, firstResume.pauseCountdown,
      firstResume.lastCountdownFrame) = (STATE_PAUSED, true, 3, none) ∧
    (step 600 firstResume (frameAt 48)).pauseCountdown = 2 ∧
    (run 600 [frameAt 48, frameAt 1047] firstResume).pauseCountdown = 2 ∧
    (run 600 [frameAt 48, frameAt 1047, frameAt 1048] firstResume).pauseCountdown = 1 ∧
    (run 600 [frameAt 48, frameAt 1047, frameAt 1048, frameAt 2048]
      firstResume).pauseCountdown = 0 ∧
    (run 600 firstCountdown firstResume).gameState = STATE_PLAYING ∧
    (2064 : ℚ) - 32 < 3000 ∧
    (secondResume.gameState, secondResume.pauseCountdownActive, secondResume.pauseCountdown,
      secondResume.lastCountdownFrame) = (STATE_PAUSED, true, 3, some 2048) ∧
    (step 600 secondResume (frameAt 5016)).pauseCountdown = 2 ∧
    (5016 : ℚ) - 5000 < 1000 :=
  ⟨reachable_run _ (reachable_run _ (reachable_run _ (Reachable.boot _ _))), by decide!⟩

/-! ## C12 -/

/-- A click or frame while the countdown runs either leaves it running, with the session
untouched, or is the frame that finds the counter at 0 and enters Playing. -/
theorem counting_step (cH : ℚ) (s0 : Game) {s : Game} (e : Event)
    (hk : isKeyEvent e = false) (hc : Counting s0 s) :
    (Counting s0 (step cH s e) ∧ entersPlaying cH s e = false) ∨
    (Resumed (step cH s e) ∧ entersPlaying cH s e = true ∧ s.pauseCountdown = 0 ∧
      s.loopPending = true ∧
      (step cH s e).birdY = s0.birdY ∧ (step cH s e).birdVelocity = s0.birdVelocity ∧
      (step cH s e).pipes = s0.pipes ∧ (step cH s e).score = s0.score) := by
  obtain ⟨ha, hp, hs, hy, hv, hps, hsc⟩ := hc
  have hstay : step cH s e = s →
      (Counting s0 (step cH s e) ∧ entersPlaying cH s e = false) ∨
      (Resumed (step cH s e) ∧ entersPlaying cH s e = true ∧ s.pauseCountdown = 0 ∧
        s.loopPending = true ∧
        (step cH s e).birdY = s0.birdY ∧ (step cH s e).birdVelocity = s0.birdVelocity ∧
        (step cH s e).pipes = s0.pipes ∧ (step cH s e).score = s0.score) := by
    intro h
    left
    unfold entersPlaying
    rw [h]
    exact ⟨⟨ha, hp, hs, hy, hv, hps, hsc⟩, by simp [hp]⟩
  cases e with
  | keydown code random => simp [isKeyEvent] at hk
  | keyup code => simp [isKeyEvent] at hk
  | click mx my random =>
    apply hstay
    simp only [step]
    unfold clickHandler
    rw [if_neg (by simp [hp]), if_neg (by simp [hs])]
  | frame clock random =>
    by_cases hl : s.loopPending = true
    · have hstep := step_frame_pending cH clock random s hl
      rw [gameLoop_countdown cH clock random { s with loopPending := false } ha] at hstep
      have hf := countdownFrame_frame clock { s with loopPending := false }
      rcases countdownFrame_cases clock { s with loopPending := false } with
        ⟨-, hg, hact⟩ | ⟨h0, hg, hact, hcnt⟩
      · left
        unfold entersPlaying
        rw [hstep]
        unfold Counting requestAnimationFrame
        simp only
        rw [hg, hact, hf.1, hf.2.1, hf.2.2.1, hf.2.2.2.1, hf.2.2.2.2.2.1]
        exact ⟨⟨ha, hp, hs, hy, hv, hps, hsc⟩, by simp [hp]⟩
      · right
        unfold entersPlaying
        rw [hstep]
        unfold Resumed requestAnimationFrame
        simp only
        rw [hg, hact, hcnt, hf.1, hf.2.1, hf.2.2.1, hf.2.2.2.1, hf.2.2.2.2.2.1]
        exact ⟨⟨rfl, rfl, hs, Or.inl rfl⟩, by simp [hp], h0, hl, hy, hv, hps, hsc⟩
    · apply hstay
      exact step_frame_dropped cH clock random s (by simpa using hl)

/-- A click or frame after the countdown neither restarts it nor switches to Playing
again. -/
theorem resumed_step (cH : ℚ) {s : Game} (e : Event) (hk : isKeyEvent e = false)
    (hi : Inv s) (hr : Resumed s) :
    Resumed (step cH s e) ∧ entersPlaying cH s e = false := by
  obtain ⟨ha, hc, hs, hg⟩ := hr
  have hstay : step cH s e = s → Resumed (step cH s e) ∧ entersPlaying cH s e = false := by
    intro h
    unfold entersPlaying
    rw [h]
    refine ⟨⟨ha, hc, hs, hg⟩, ?_⟩
    rcases hg with hg | hg <;> simp [hg]
  cases e with
  | keydown code random => simp [isKeyEvent] at hk
  | keyup code => simp [isKeyEvent] at hk
  | click mx my random =>
    apply hstay
    simp only [step]
    unfold clickHandler
    rw [if_neg (by rcases hg with hg | hg <;> simp [hg]), if_neg (by simp [hs])]
  | frame clock random =>
    by_cases hl : s.loopPending = true
    · have hstep := step_frame_pending cH clock random s hl
      rcases hg with hg | hg
      · obtain ⟨m, hm, -, hgl⟩ := gameLoop_playing cH clock random
          { s with loopPending := false } ha hg (hi.live (by simp [hg]) (by simp [hg]))
        have hf := recycled_fields hm
        rw [hgl] at hstep
        unfold entersPlaying
        rw [hstep]
        unfold Resumed requestAnimationFrame
        simp only [detectCollision_pauseCountdownActive, detectCollision_pauseCountdown,
          detectCollision_showShop]
        rw [hf.2.2.2.2.2.1, hf.2.2.2.2.1, hf.2.2.2.1]
        refine ⟨⟨ha, hc, hs, ?_⟩, by simp [hg]⟩
        rcases detectCollision_gameState cH m with h | h
        · exact Or.inr h
        · exact Or.inl (by rw [h, hf.1]; exact hg)
      · rw [gameLoop_idle cH clock random { s with loopPending := false } ha
          (by simp [hg]) (by simp [hg])] at hstep
        unfold entersPlaying
        rw [hstep]
        exact ⟨⟨ha, hc, hs, Or.inr hg⟩, by simp [requestAnimationFrame, hg]⟩
    · apply hstay
      exact step_frame_dropped cH clock random s (by simpa using hl)

theorem resumed_run (cH : ℚ) {ls : Storage} (es : List Event) :
    ∀ s : Game, (∀ e ∈ es, isKeyEvent e = false) → Reachable cH ls s → Resumed s →
      Resumed (run cH es s) ∧ playingEntries cH es s = 0 := by
  induction es with
  | nil => intro s _ _ h; exact ⟨h, rfl⟩
  | cons e es ih =>
    intro s hk hr h
    obtain ⟨h1, h2⟩ := resumed_step cH e (hk e (List.mem_cons_self _ _)) hr.inv h
    obtain ⟨h3, h4⟩ := ih (step cH s e) (fun e' he' => hk e' (List.mem_cons_of_mem _ he'))
      (Reachable.step e hr) h1
    exact ⟨h3, by simp [playingEntries, h2, h4]⟩

theorem counting_run (cH : ℚ) {ls : Storage} (s0 : Game) (es : List Event) :
    ∀ s : Game, (∀ e ∈ es, isKeyEvent e = false) → Reachable cH ls s → Counting s0 s →
      (Counting s0 (run cH es s) ∧ playingEntries cH es s = 0) ∨
      (Resumed (run cH es s) ∧ playingEntries cH es s = 1) := by
  induction es with
  | nil => intro s _ _ h; exact Or.inl ⟨h, rfl⟩
  | cons e es ih =>
    intro s hk hr h
    have hk' : ∀ e' ∈ es, isKeyEvent e' = false :=
      fun e' he' => hk e' (List.mem_cons_of_mem _ he')
    rcases counting_step cH s0 e (hk e (List.mem_cons_self _ _)) h with
      ⟨h1, h2⟩ | ⟨h1, h2, -⟩
    · rcases ih (step cH s e) hk' (Reachable.step e hr) h1 with ⟨h3, h4⟩ | ⟨h3, h4⟩
      · exact Or.inl ⟨h3, by simp [playingEntries, h2, h4]⟩
      · exact Or.inr ⟨h3, by simp [playingEntries, h2, h4]⟩
    · obtain ⟨h3, h4⟩ := resumed_run cH es (step cH s e) hk' (Reachable.step e hr) h1
      exact Or.inr ⟨h3, by simp [playingEntries, h2, h4]⟩

/-- C12: in a reachable Paused state with no countdown running, the resume key starts
the countdown at 3; then, over any run of clicks and frames (no key events): as long as
the counter is above 0, or the countdown flag is still set, `gameState` is Paused (not
Playing) and `birdY`, `birdVelocity`, the pipes and the score are as they were; a frame
that finds the flag set and the counter at 0 sets Playing and clears the flag, still
without moving anything; and the run holds at most one switch to Playing, exactly one
when the flag is clear at its end. -/
theorem countdown_then_playing_once (cH : ℚ) (ls : Storage) (random : Nat → ℚ)
    (es : List Event) (s : Game) (hr : Reachable cH ls s)
    (hp : s.gameState = STATE_PAUSED) (ha : s.pauseCountdownActive = false)
    (hk : ∀ e ∈ es, isKeyEvent e = false) :
    ((keydownHandler cH Key.KeyP random s).pauseCountdown = 3 ∧
      (keydownHandler cH Key.KeyP random s).pauseCountdownActive = true ∧
      (keydownHandler cH Key.KeyP random s).gameState = STATE_PAUSED) ∧
    (0 < (resumeThen cH random es s).pauseCountdown ∨
        (resumeThen cH random es s).pauseCountdownActive = true →
      (resumeThen cH random es s).gameState = STATE_PAUSED ∧
      (resumeThen cH random es s).gameState ≠ STATE_PLAYING ∧
      (resumeThen cH random es s).birdY = s.birdY ∧
      (resumeThen cH random es s).birdVelocity = s.birdVelocity ∧
      (resumeThen cH random es s).pipes = s.pipes ∧
      (resumeThen cH random es s).score = s.score) ∧
    ((resumeThen cH random es s).pauseCountdownActive = true →
      (resumeThen cH random es s).pauseCountdown = 0 →
      (resumeThen cH random es s).loopPending = true →
      ∀ clock random',
        (step cH (resumeThen cH random es s) (.frame clock random')).gameState =
          STATE_PLAYING ∧
        (step cH (resumeThen cH random es s) (.frame clock random')).pauseCountdownActive =
          false ∧
        (step cH (resumeThen cH random es s) (.frame clock random')).birdY = s.birdY ∧
        (step cH (resumeThen cH random es s) (.frame clock random')).birdVelocity =
          s.birdVelocity ∧
        (step cH (resumeThen cH random es s) (.frame clock random')).pipes = s.pipes ∧
        (step cH (resumeThen cH random es s) (.frame clock random')).score = s.score) ∧
    (playingEntries cH es (keydownHandler cH Key.KeyP random s) ≤ 1 ∧
      ((resumeThen cH random es s).pauseCountdownActive = false ↔
        playingEntries cH es (keydownHandler cH Key.KeyP random s) = 1)) := by
  have hkey : keydownHandler cH Key.KeyP random s =
      { s with pauseCountdown := 3, pauseCountdownActive := true } := by
    unfold keydownHandler
    rw [if_neg (by simp [hp]), if_neg (by simp [ha]), if_pos hp, if_pos rfl]
  have hshop : s.showShop = false := by
    by_contra h
    have h' : s.showShop = true := by simpa using h
    have := (reachable_menuOk hr).1 h'
    rw [hp] at this
    cases this
  have hr0 : Reachable cH ls (keydownHandler cH Key.KeyP random s) :=
    Reachable.step (.keydown Key.KeyP random) hr
  have hc0 : Counting s (keydownHandler cH Key.KeyP random s) := by
    rw [hkey]
    exact ⟨rfl, hp, hshop, rfl, rfl, rfl, rfl⟩
  refine ⟨by rw [hkey]; exact ⟨rfl, rfl, hp⟩, ?_⟩
  unfold resumeThen
  rcases counting_run cH s es _ hk hr0 hc0 with ⟨hc, hn⟩ | ⟨hres, hn⟩
  · obtain ⟨hact, hg, hsh, hy, hv, hps, hsc⟩ := hc
    refine ⟨fun _ => ⟨hg, by simp [hg], hy, hv, hps, hsc⟩, ?_, ?_⟩
    · intro _ h0 hl clock random'
      generalize run cH es (keydownHandler cH Key.KeyP random s) = sN at hact h0 hl hy hv hps hsc ⊢
      rw [step_frame_pending cH clock random' sN hl,
        gameLoop_countdown cH clock random' { sN with loopPending := false } hact]
      have hf := countdownFrame_frame clock { sN with loopPending := false }
      rcases countdownFrame_cases clock { sN with loopPending := false } with
        ⟨hpos, -, -⟩ | ⟨-, hg', hact', -⟩
      · simp only at hpos
        omega
      · unfold requestAnimationFrame
        simp only
        rw [hg', hact', hf.1, hf.2.1, hf.2.2.1, hf.2.2.2.1]
        exact ⟨rfl, rfl, hy, hv, hps, hsc⟩
    · rw [hn, hact]
      exact ⟨by decide, by simp⟩
  · obtain ⟨hact, hcnt, -, -⟩ := hres
    refine ⟨fun h => ?_, fun h => ?_, ?_⟩
    · rcases h with h | h
      · omega
      · rw [hact] at h; cases h
    · rw [hact] at h; cases h
    · rw [hn, hact]
      exact ⟨le_refl _, by simp⟩

theorem countdown_then_playing_once_witness :
    ((keydownHandler 600 Key.KeyP (always 0) pausedExample).pauseCountdown = 3 ∧
      (keydownHandler 600 Key.KeyP (always 0) pausedExample).pauseCountdownActive = true ∧
      (keydownHandler 600 Key.KeyP (always 0) pausedExample).gameState = STATE_PAUSED) ∧
    (0 < (resumeThen 600 (always 0) firstCountdown pausedExample).pauseCountdown ∨
        (resumeThen 600 (always 0) firstCountdown pausedExample).pauseCountdownActive = true →
      (resumeThen 600 (always 0) firstCountdown pausedExample).gameState = STATE_PAUSED ∧
      (resumeThen 600 (always 0) firstCountdown pausedExample).gameState ≠ STATE_PLAYING ∧
      (resumeThen 600 (always 0) firstCountdown pausedExample).birdY = pausedExample.birdY ∧
      (resumeThen 600 (always 0) firstCountdown pausedExample).birdVelocity =
        pausedExample.birdVelocity ∧
      (resumeThen 600 (always 0) firstCountdown pausedExample).pipes = pausedExample.pipes ∧
      (resumeThen 600 (always 0) firstCountdown pausedExample).score = pausedExample.score) ∧
    ((resumeThen 600 (always 0) firstCountdown pausedExample).pauseCountdownActive = true →
      (resumeThen 600 (always 0) firstCountdown pausedExample).pauseCountdown = 0 →
      (resumeThen 600 (always 0) firstCountdown pausedExample).loopPending = true →
      ∀ clock random',
        (step 600 (resumeThen 600 (always 0) firstCountdown pausedExample)
          (.frame clock random')).gameState = STATE_PLAYING ∧
        (step 600 (resumeThen 600 (always 0) firstCountdown pausedExample)
          (.frame clock random')).pauseCountdownActive = false ∧
        (step 600 (resumeThen 600 (always 0) firstCountdown pausedExample)
          (.frame clock random')).birdY = pausedExample.birdY ∧
        (step 600 (resumeThen 600 (always 0) firstCountdown pausedExample)
          (.frame clock random')).birdVelocity = pausedExample.birdVelocity ∧
        (step 600 (resumeThen 600 (always 0) firstCountdown pausedExample)
          (.frame clock random')).pipes = pausedExample.pipes ∧
        (step 600 (resumeThen 600 (always 0) firstCountdown pausedExample)
          (.frame clock random')).score = pausedExample.score) ∧
    (playingEntries 600 firstCountdown (keydownHandler 600 Key.KeyP (always 0) pausedExample)
        ≤ 1 ∧
      ((resumeThen 600 (always 0) firstCountdown pausedExample).pauseCountdownActive = false ↔
        playingEntries 600 firstCountdown
          (keydownHandler 600 Key.KeyP (always 0) pausedExample) = 1)) :=
  countdown_then_playing_once 600 emptyStorage (always 0) firstCountdown pausedExample
    (Reachable.step _ afterPlayClick_reachable) (by decide!) (by decide!)
    (by
      intro e he
      simp only [firstCountdown, frameAt, List.mem_cons, List.mem_singleton,
        List.not_mem_nil, or_false] at he
      rcases he with rfl | rfl | rfl | rfl | rfl <;> rfl)

/-- The countdown of C12, evaluated from `pausedExample`: after the resume key and the
frames at 48, 1047, 1048 and 2048 ms the state is still Paused with the counter at 0 and
the flag set; the next frame, at 2064 ms, is the one switch to Playing and clears the
flag, with the bird where it was. -/
theorem countdown_examples :
    ((resumeThen 600 (always 0) [frameAt 48, frameAt 1047, frameAt 1048, frameAt 2048]
        pausedExample).gameState,
      (resumeThen 600 (always 0) [frameAt 48, frameAt 1047, frameAt 1048, frameAt 2048]
        pausedExample).pauseCountdown,
      (resumeThen 600 (always 0) [frameAt 48, frameAt 1047, frameAt 1048, frameAt 2048]
        pausedExample).pauseCountdownActive) = (STATE_PAUSED, 0, true) ∧
    ((resumeThen 600 (always 0) firstCountdown pausedExample).gameState,
      (resumeThen 600 (always 0) firstCountdown pausedExample).pauseCountdownActive,
      decide ((resumeThen 600 (always 0) firstCountdown pausedExample).birdY =
        pausedExample.birdY)) = (STATE_PLAYING, false, true) ∧
    playingEntries 600 firstCountdown (keydownHandler 600 Key.KeyP (always 0) pausedExample)
      = 1 := by
  decide!

end FlappyBird
